import Mathlib

/-!
NavGrid: ladder tiles, movement modes and the icosphere

A shallow embedding of the parts of the NavGrid plugin that live in
`NavLadderComponent.cpp`, `NavSphere.cpp`, `GridMovementComponent.h` and
`NavGrid.h`, followed by theorems about them.

Modelling conventions

* `float` is IEEE 754 binary32 (`Float32`): a sign bit, an 8-bit exponent and
  a 23-bit mantissa, with round-to-nearest-even arithmetic, signed zeros,
  subnormals, overflow to infinity and NaN. Every operation computes the
  exact result on integers and rounds it once.
* Engine code that is not part of the plugin (the component-to-world
  transform, the component rotation, the base-class `Super::UpdateBodySetup`,
  the three-argument `UNavTileComponent::Obstructed`) is taken as a parameter.
  The square root used by `FVector::Size` is a parameter of the definitions as
  well; the theorems about distances fix it to `FMath.Sqrt`, the correctly
  rounded binary32 square root.
* `TArray` is a `List`; a `USplineComponent` is the list of its points.
-/

namespace NavGrid

/-! ## Binary32 arithmetic -/

/-- IEEE 754 binary32 by its three bit fields: sign, biased exponent, mantissa. -/
structure Float32 where
  sign : Bool
  exponent : Fin 256
  mantissa : Fin 8388608
  deriving DecidableEq, Repr

namespace Float32

/-- All exponent bits set and a non-zero mantissa. -/
def isNaN (f : Float32) : Bool := f.exponent.val == 255 && f.mantissa.val != 0

/-- All exponent bits set and a zero mantissa. -/
def isInf (f : Float32) : Bool := f.exponent.val == 255 && f.mantissa.val == 0

/-- Either signed zero. -/
def isZero (f : Float32) : Bool := f.exponent.val == 0 && f.mantissa.val == 0

/-- Power of two, by a shift. -/
def pow2 (k : Nat) : Nat := 1 <<< k

/-- Bit-length recursion for `log2`. -/
def log2Aux : Nat → Nat → Nat
  | 0, _ => 0
  | fuel + 1, n => if n < 2 then 0 else log2Aux fuel (n / 2) + 1

/-- Position of the leading one bit of `n` (0 for `n < 2`). -/
def log2 (n : Nat) : Nat := log2Aux n n

/-- Magnitude in units of 2^-149, the smallest subnormal: the mantissa for a
subnormal, `(2^23 + mantissa) * 2^(exponent - 1)` for a normal number. The same
formula gives an infinity the magnitude 2^277, above every finite one. -/
def mag (f : Float32) : Nat :=
  if f.exponent.val = 0 then f.mantissa.val
  else (8388608 + f.mantissa.val) * pow2 (f.exponent.val - 1)

/-- Exact value in units of 2^-149 (for a number that is not NaN). -/
def toInt (f : Float32) : Int := if f.sign then -(f.mag : Int) else (f.mag : Int)

/-- The quiet NaN that arithmetic returns. The sign and payload of a NaN result
differ between processors; this one pattern stands for all of them, and no
theorem below depends on which it is. -/
def nan : Float32 := ⟨false, 255, 4194304⟩

/-- Signed infinity. -/
def inf (neg : Bool) : Float32 := ⟨neg, 255, 0⟩

/-- Signed zero. -/
def zero (neg : Bool) : Float32 := ⟨neg, 0, 0⟩

/-- Quotient `m / 2^t` rounded to nearest, ties to even. -/
def roundShift (m t : Nat) : Nat :=
  let q := m / pow2 t
  let r := m % pow2 t
  if pow2 t < 2 * r ∨ (2 * r = pow2 t ∧ q % 2 = 1) then q + 1 else q

/-- The magnitude (in units of 2^-149) on the binary32 grid nearest to
`m * 2^e` units, ties to even: the grid spacing is `2^sh` units where the
leading bit sits 23 places above it, and never below one unit. -/
def roundMag (m : Nat) (e : Int) : Nat :=
  if m = 0 then 0
  else
    let sh : Int := max ((log2 m : Int) + e - 23) 0
    let t : Int := sh - e
    if t ≤ 0 then m * pow2 e.toNat
    else roundShift m t.toNat * pow2 sh.toNat

/-- The number with the given sign and (rounded) magnitude; a magnitude of
2^277 units or more overflows to infinity. -/
def ofMag (neg : Bool) (n : Nat) : Float32 :=
  if pow2 277 ≤ n then inf neg
  else if h : n < 8388608 then ⟨neg, 0, ⟨n, h⟩⟩
  else
    ⟨neg, ⟨(log2 n - 22) % 256, Nat.mod_lt _ (by decide)⟩,
      ⟨(n / pow2 (log2 n - 23)) % 8388608, Nat.mod_lt _ (by decide)⟩⟩

/-- The value, in units of 2^-149, of the binary32 number nearest to the
integer `s` units, an infinity counting as plus or minus 2^277 units. -/
def roundInt (s : Int) : Int :=
  if 0 ≤ s then ((min (roundMag s.natAbs 0) (pow2 277) : Nat) : Int)
  else -((min (roundMag s.natAbs 0) (pow2 277) : Nat) : Int)

/-- Unary minus: flips the sign bit. -/
def neg (a : Float32) : Float32 := { a with sign := !a.sign }

/-- Addition, rounded to nearest even. -/
def add (a b : Float32) : Float32 :=
  if a.isNaN || b.isNaN then nan
  else if a.isInf then (if b.isInf && (a.sign != b.sign) then nan else a)
  else if b.isInf then b
  else
    let s : Int := a.toInt + b.toInt
    if s = 0 then zero (a.sign && b.sign)
    else ofMag (decide (s < 0)) (roundMag s.natAbs 0)

/-- Subtraction: addition of the negated operand. -/
def sub (a b : Float32) : Float32 := add a (neg b)

/-- Multiplication, rounded to nearest even. -/
def mul (a b : Float32) : Float32 :=
  if a.isNaN || b.isNaN then nan
  else if a.isInf || b.isInf then
    (if a.isZero || b.isZero then nan else inf (a.sign != b.sign))
  else ofMag (a.sign != b.sign) (roundMag (a.mag * b.mag) (-149))

/-- Division, rounded to nearest even: the quotient is computed to 160 extra
bits and a sticky bit records a non-zero remainder. -/
def div (a b : Float32) : Float32 :=
  if a.isNaN || b.isNaN then nan
  else if a.isInf then (if b.isInf then nan else inf (a.sign != b.sign))
  else if b.isInf then zero (a.sign != b.sign)
  else if b.isZero then (if a.isZero then nan else inf (a.sign != b.sign))
  else
    let N := a.mag * pow2 309
    let q := N / b.mag
    let sticky := if N % b.mag = 0 then 0 else 1
    ofMag (a.sign != b.sign) (roundMag (2 * q + sticky) (-161))

/-- Bit-by-bit integer square root: tries the bits below `i`, highest first. -/
def isqrtAux (n : Nat) : Nat → Nat → Nat
  | 0, r => r
  | i + 1, r => isqrtAux n i (if (r + pow2 i) * (r + pow2 i) ≤ n then r + pow2 i else r)

/-- Integer square root, rounded down. -/
def isqrt (n : Nat) : Nat := isqrtAux n (log2 n / 2 + 1) 0

/-- Square root, rounded to nearest even (`sqrtf`): the integer root of the
magnitude scaled by 2^149, with a sticky bit for an inexact root. -/
def sqrt (a : Float32) : Float32 :=
  if a.isNaN then nan
  else if a.isZero then a
  else if a.sign then nan
  else if a.isInf then a
  else
    let M := a.mag * pow2 149
    let s := isqrt M
    let sticky := if s * s = M then 0 else 1
    ofMag false (roundMag (2 * s + sticky) (-1))

/-- The comparison `a < b`: false when either operand is NaN. -/
def lt (a b : Float32) : Bool := !a.isNaN && !b.isNaN && decide (a.toInt < b.toInt)

/-- The comparison `a <= b`: false when either operand is NaN. -/
def le (a b : Float32) : Bool := !a.isNaN && !b.isNaN && decide (a.toInt ≤ b.toInt)

/-- Conversion of a non-negative integer constant, rounded to nearest even. -/
def ofNat (n : Nat) : Float32 := ofMag false (roundMag n 149)

instance : Add Float32 := ⟨add⟩
instance : Sub Float32 := ⟨sub⟩
instance : Mul Float32 := ⟨mul⟩
instance : Div Float32 := ⟨div⟩
instance : Neg Float32 := ⟨neg⟩
instance : LT Float32 := ⟨fun a b => lt a b = true⟩
instance : LE Float32 := ⟨fun a b => le a b = true⟩
instance (a b : Float32) : Decidable (a < b) := inferInstanceAs (Decidable (lt a b = true))
instance (a b : Float32) : Decidable (a ≤ b) := inferInstanceAs (Decidable (le a b = true))
instance (n : Nat) : OfNat Float32 n := ⟨ofNat n⟩

end Float32

/-! ## Data model -/

/-- The C++ `float`. -/
abbrev Scalar := Float32

/-- Models `FMath::Sqrt(float)`, that is `sqrtf`: the correctly rounded square root. -/
def FMath.Sqrt (Value : Scalar) : Scalar := Float32.sqrt Value

/-- The engine's `FVector`: three float components. -/
structure FVector where
  X : Scalar
  Y : Scalar
  Z : Scalar
  deriving DecidableEq, Repr

namespace FVector

/-- Models `FVector(F)`: all three components equal to `F`. -/
def splat (F : Scalar) : FVector := ⟨F, F, F⟩

/-- Models `operator+` -/
def add (a b : FVector) : FVector := ⟨a.X + b.X, a.Y + b.Y, a.Z + b.Z⟩

/-- Models `operator-` -/
def sub (a b : FVector) : FVector := ⟨a.X - b.X, a.Y - b.Y, a.Z - b.Z⟩

/-- Models `operator*(float)` -/
def scale (a : FVector) (s : Scalar) : FVector := ⟨a.X * s, a.Y * s, a.Z * s⟩

/-- Models `operator/(float)`: the engine multiplies by the reciprocal,
`RScale = 1.f / Scale`. -/
def div (a : FVector) (s : Scalar) : FVector :=
  let RScale : Scalar := 1 / s
  ⟨a.X * RScale, a.Y * RScale, a.Z * RScale⟩

instance : Add FVector := ⟨add⟩
instance : Sub FVector := ⟨sub⟩

/-- Models `FVector::Size()`: `FMath::Sqrt(X*X + Y*Y + Z*Z)` in binary32, with the
square-root routine passed in; the engine's is `FMath.Sqrt`. -/
def Size (Sqrt : Scalar → Scalar) (a : FVector) : Scalar :=
  Sqrt (a.X * a.X + a.Y * a.Y + a.Z * a.Z)

end FVector

/-- Models `TArray::Empty()`: the array with every element removed. -/
def TArray.Empty {α : Type} (_A : List α) : List α := []

/-- Models `FMath::Max<float>(A, B)`: `(A >= B) ? A : B`. -/
def FMath.Max (A B : Scalar) : Scalar := if A ≥ B then A else B

/-- Models `enum class EGridMovementMode : uint8` of `GridMovementComponent.h`. -/
inductive EGridMovementMode
  | Stationary
  | Walking
  | ClimbingUp
  | ClimbingDown
  | InPlaceTurn
  deriving DecidableEq, Repr, Fintype

namespace EGridMovementMode

end EGridMovementMode

/-- Models `ANavGrid`: the one member the ladder reads, with its in-class default. -/
structure ANavGrid where
  TileSize : Scalar := 200
  deriving DecidableEq, Repr

/-- Models `UCapsuleComponent`: the collision capsule, with the member the ladder reads. -/
structure UCapsuleComponent where
  RelativeLocation : FVector
  deriving DecidableEq, Repr

/-- A neighbouring tile as the ladder sees it through `UNavTileComponent*`: an
identity for the pointer and its two virtual methods. -/
structure UNavTileComponent where
  Id : Nat
  GetPawnLocation : FVector
  Obstructed : FVector → UCapsuleComponent → Bool

/-- Models `USceneComponent` attached to the ladder: only its relative location is stored. -/
structure USceneComponent where
  RelativeLocation : FVector
  deriving DecidableEq, Repr

/-- Models `FCollisionShape::MakeBox(Extent)`: a box with the given half extent. -/
structure FCollisionShape where
  BoxHalfExtent : FVector
  deriving DecidableEq, Repr

/-- Models `FCollisionShape::MakeBox` -/
def FCollisionShape.MakeBox (BoxHalfExtent : FVector) : FCollisionShape := ⟨BoxHalfExtent⟩

/-- State of a `UNavLadderComponent`. `Grid` is `none` when `IsValid(Grid)` is
false. `ComponentToWorld` maps a location relative to the ladder to world
space, `ComponentRotation` is `GetComponentRotation().RotateVector`. -/
structure UNavLadderComponent where
  BoxExtent : FVector
  Grid : Option ANavGrid
  NeighbourhoodShape : FCollisionShape
  PawnLocationOffset : FVector
  BottomPathPoint : USceneComponent
  TopPathPoint : USceneComponent
  Neighbours : List UNavTileComponent
  ComponentToWorld : FVector → FVector
  ComponentRotation : FVector → FVector

namespace UNavLadderComponent

/-- Models `GetComponentLocation()` of the ladder itself: the image of its origin. -/
def GetComponentLocation (L : UNavLadderComponent) : FVector :=
  L.ComponentToWorld ⟨0, 0, 0⟩

/-- Models `TopPathPoint->GetComponentLocation()`: the point is attached to the ladder. -/
def TopLocation (L : UNavLadderComponent) : FVector :=
  L.ComponentToWorld L.TopPathPoint.RelativeLocation

/-- Models `BottomPathPoint->GetComponentLocation()`: the point is attached to the ladder. -/
def BottomLocation (L : UNavLadderComponent) : FVector :=
  L.ComponentToWorld L.BottomPathPoint.RelativeLocation

/-- Models `GetNeighbours()` -/
def GetNeighbours (L : UNavLadderComponent) : List UNavTileComponent := L.Neighbours

/-- Models `UNavLadderComponent::UpdateBodySetup`, after the base class's
`Super::UpdateBodySetup` (passed in) has run. -/
def UpdateBodySetup (Super : UNavLadderComponent → UNavLadderComponent)
    (L0 : UNavLadderComponent) : UNavLadderComponent :=
  let L := Super L0
  let NeighbourhoodExtent : FVector := L.BoxExtent
  let NeighbourhoodExtent : FVector :=
    match L.Grid with
    | some Grid =>
      let E : FVector :=
        { NeighbourhoodExtent with X := FMath.Max NeighbourhoodExtent.X Grid.TileSize }
      { E with Y := FMath.Max E.Y (Grid.TileSize / 2) }
    | none => NeighbourhoodExtent
  let NeighbourhoodExtent : FVector := NeighbourhoodExtent + FVector.splat 15
  let L : UNavLadderComponent :=
    { L with NeighbourhoodShape := FCollisionShape.MakeBox NeighbourhoodExtent }
  let L : UNavLadderComponent :=
    { L with PawnLocationOffset := L.ComponentRotation ⟨90, 0, 0⟩ }
  match L.Grid with
  | some Grid =>
    { L with
      BottomPathPoint := ⟨⟨Grid.TileSize / 2, 0, 50 - L.BoxExtent.Z⟩⟩
      TopPathPoint := ⟨⟨Grid.TileSize / 2, 0, L.BoxExtent.Z - 25⟩⟩ }
  | none => L

/-- Models `UNavLadderComponent::GetPawnLocation` -/
def GetPawnLocation (L : UNavLadderComponent) : FVector :=
  (L.BottomLocation + L.TopLocation).div 2

/-- The trace point of `GetUnobstructedNeighbours` for the neighbour `N`:
`TopDistance < BottomDistance ? Top : Bottom`. -/
def NeighbourTracePoint (Sqrt : Scalar → Scalar) (L : UNavLadderComponent)
    (N : UNavTileComponent) : FVector :=
  let TopDistance := (L.TopLocation - N.GetPawnLocation).Size Sqrt
  let BottomDistance := (L.BottomLocation - N.GetPawnLocation).Size Sqrt
  if TopDistance < BottomDistance then L.TopLocation else L.BottomLocation

/-- The loop of `GetUnobstructedNeighbours` over the remaining neighbours,
`Out` being `OutNeighbours` so far. -/
def GetUnobstructedNeighboursLoop (Sqrt : Scalar → Scalar) (L : UNavLadderComponent)
    (CollisionCapsule : UCapsuleComponent) :
    List UNavTileComponent → List UNavTileComponent → List UNavTileComponent
  | [], Out => Out
  | N :: rest, Out =>
    let TracePoint := NeighbourTracePoint Sqrt L N
    if !N.Obstructed TracePoint CollisionCapsule then
      GetUnobstructedNeighboursLoop Sqrt L CollisionCapsule rest (Out ++ [N])
    else
      GetUnobstructedNeighboursLoop Sqrt L CollisionCapsule rest Out

/-- Models `UNavLadderComponent::GetUnobstructedNeighbours`: the value of
`OutNeighbours` on return, given its value on entry. -/
def GetUnobstructedNeighbours (Sqrt : Scalar → Scalar) (L : UNavLadderComponent)
    (CollisionCapsule : UCapsuleComponent) (OutNeighbours : List UNavTileComponent) :
    List UNavTileComponent :=
  let OutNeighbours := TArray.Empty OutNeighbours
  GetUnobstructedNeighboursLoop Sqrt L CollisionCapsule L.GetNeighbours OutNeighbours

/-- The trace target of `UNavLadderComponent::Obstructed`:
`TopDistance < BottomDistance ? Top : Bottom`. -/
def ObstructedTracePoint (Sqrt : Scalar → Scalar) (L : UNavLadderComponent)
    (FromPos : FVector) : FVector :=
  let TopDistance := (L.TopLocation - FromPos).Size Sqrt
  let BottomDistance := (L.BottomLocation - FromPos).Size Sqrt
  if TopDistance < BottomDistance then L.TopLocation else L.BottomLocation

/-- Models `UNavLadderComponent::Obstructed`, with the base class's three-argument
`UNavTileComponent::Obstructed(From, To, Capsule)` passed in. -/
def Obstructed (Sqrt : Scalar → Scalar)
    (BaseObstructed : FVector → FVector → UCapsuleComponent → Bool)
    (L : UNavLadderComponent) (FromPos : FVector)
    (CollisionCapsule : UCapsuleComponent) : Bool :=
  let TracePoint := ObstructedTracePoint Sqrt L FromPos
  BaseObstructed (FromPos + CollisionCapsule.RelativeLocation)
    (TracePoint + CollisionCapsule.RelativeLocation) CollisionCapsule

/-- Models `UNavLadderComponent::Traversable` -/
def Traversable (_L : UNavLadderComponent) (_MaxWalkAngle : Scalar)
    (AvailableMovementModes : List EGridMovementMode) : Bool :=
  AvailableMovementModes.contains EGridMovementMode.ClimbingDown
    || AvailableMovementModes.contains EGridMovementMode.ClimbingUp

/-- Models `UNavLadderComponent::LegalPositionAtEndOfTurn` -/
def LegalPositionAtEndOfTurn (_L : UNavLadderComponent) (_MaxWalkAngle : Scalar)
    (_AvailableMovementModes : List EGridMovementMode) : Bool :=
  false

end UNavLadderComponent

/-- Models `USplineComponent`: the ordered list of its spline points. -/
structure USplineComponent where
  Points : List FVector
  deriving DecidableEq, Repr

namespace USplineComponent

/-- Models `AddSplinePoint(Position, Local, false)`: the point goes after the last one. -/
def AddSplinePoint (S : USplineComponent) (Position : FVector) : USplineComponent :=
  ⟨S.Points ++ [Position]⟩

/-- Models `GetNumberOfSplinePoints()` -/
def GetNumberOfSplinePoints (S : USplineComponent) : Int := S.Points.length

/-- Models `RemoveSplinePoint(Index, true)`: removes the point when the index names one. -/
def RemoveSplinePoint (S : USplineComponent) (Index : Int) : USplineComponent :=
  if 0 ≤ Index ∧ Index < S.GetNumberOfSplinePoints then ⟨S.Points.eraseIdx Index.toNat⟩ else S

end USplineComponent

/-- Models `UNavLadderComponent::AddSplinePoints`: the value of `OutSpline` on return. -/
def UNavLadderComponent.AddSplinePoints (Sqrt : Scalar → Scalar) (L : UNavLadderComponent)
    (FromPos : FVector) (OutSpline : USplineComponent) (LastTile : Bool) :
    USplineComponent :=
  let TopDistance := (L.TopLocation - FromPos).Size Sqrt
  let BottomDistance := (L.BottomLocation - FromPos).Size Sqrt
  let OutSpline :=
    if TopDistance > BottomDistance then
      (OutSpline.AddSplinePoint L.BottomLocation).AddSplinePoint L.TopLocation
    else
      (OutSpline.AddSplinePoint L.TopLocation).AddSplinePoint L.BottomLocation
  if LastTile then
    (OutSpline.RemoveSplinePoint (OutSpline.GetNumberOfSplinePoints - 1)).AddSplinePoint
      (L.PawnLocationOffset + L.GetComponentLocation)
  else
    OutSpline

/-- Models `FTriangle` of `NavSphere.h`: `int32 VertexIds[3]`, as `DrawDebug` indexes it. -/
structure FTriangle where
  V0 : Int
  V1 : Int
  V2 : Int
  deriving DecidableEq, Repr

/-- The three vertex ids in order: `VertexIds[0]`, `VertexIds[1]`, `VertexIds[2]`. -/
def FTriangle.VertexIds (T : FTriangle) : List Int := [T.V0, T.V1, T.V2]

/-- The directed edges `DrawDebug` draws for a triangle:
`(VertexIds[i % 3], VertexIds[(i + 1) % 3])` for `i = 0, 1, 2`. -/
def FTriangle.Edges (T : FTriangle) : List (Int × Int) :=
  [(T.V0, T.V1), (T.V1, T.V2), (T.V2, T.V0)]

/-- Models `FIcoSphere`: its vertex and triangle arrays. -/
structure FIcoSphere where
  Vertices : List FVector
  Triangles : List FTriangle
  deriving DecidableEq, Repr

namespace FIcoSphere

/-- Modelled from the spec: `FIcoSphere::AddVertex` is declared in `NavSphere.h`,
which is not among the sources, and the specification leaves the debug mesh
out of scope; from its use in `MakeIcosahedron` and `DrawDebug` it is taken to
put the point `(X, Y, Z)` at the end of `Vertices`. -/
def AddVertex (S : FIcoSphere) (X Y Z : Scalar) : FIcoSphere :=
  { S with Vertices := S.Vertices ++ [⟨X, Y, Z⟩] }

/-- Modelled from the spec: `FIcoSphere::AddTriangle` is declared in `NavSphere.h`,
which is not among the sources, and the specification leaves the debug mesh
out of scope; from its use in `MakeIcosahedron` and `DrawDebug` it is taken to
put the triangle with the three vertex ids at the end of `Triangles`. -/
def AddTriangle (S : FIcoSphere) (A B C : Int) : FIcoSphere :=
  { S with Triangles := S.Triangles ++ [⟨A, B, C⟩] }

/-- Models `FIcoSphere::MakeIcosahedron`, with the constant `FIcoSphere::Phi` passed in. -/
def MakeIcosahedron (Phi : Scalar) (S : FIcoSphere) : FIcoSphere :=
  let S : FIcoSphere := { S with Vertices := TArray.Empty S.Vertices }
  let S : FIcoSphere := { S with Triangles := TArray.Empty S.Triangles }
  let S := S.AddVertex (-1) Phi 0
  let S := S.AddVertex 1 Phi 0
  let S := S.AddVertex (-1) (-Phi) 0
  let S := S.AddVertex 1 (-Phi) 0
  let S := S.AddVertex 0 (-1) Phi
  let S := S.AddVertex 0 1 Phi
  let S := S.AddVertex 0 (-1) (-Phi)
  let S := S.AddVertex 0 1 (-Phi)
  let S := S.AddVertex Phi 0 (-1)
  let S := S.AddVertex Phi 0 1
  let S := S.AddVertex (-Phi) 0 (-1)
  let S := S.AddVertex (-Phi) 0 1
  let S := S.AddTriangle 0 11 5
  let S := S.AddTriangle 0 5 1
  let S := S.AddTriangle 0 1 7
  let S := S.AddTriangle 0 7 10
  let S := S.AddTriangle 0 10 11
  let S := S.AddTriangle 1 5 9
  let S := S.AddTriangle 5 11 4
  let S := S.AddTriangle 11 10 2
  let S := S.AddTriangle 10 7 6
  let S := S.AddTriangle 7 1 8
  let S := S.AddTriangle 3 9 4
  let S := S.AddTriangle 3 4 2
  let S := S.AddTriangle 3 2 6
  let S := S.AddTriangle 3 6 8
  let S := S.AddTriangle 3 8 9
  let S := S.AddTriangle 4 9 5
  let S := S.AddTriangle 2 4 11
  let S := S.AddTriangle 6 2 10
  let S := S.AddTriangle 8 6 7
  let S := S.AddTriangle 9 8 1
  { S with Vertices := S.Vertices.map (fun Vert => Vert.scale 100) }

/-- All directed edges of the mesh, triangle by triangle. -/
def DirectedEdges (S : FIcoSphere) : List (Int × Int) :=
  S.Triangles.flatMap FTriangle.Edges

/-- Number of triangles that have the directed edge `e`. -/
def EdgeUse (S : FIcoSphere) (e : Int × Int) : Nat :=
  (S.Triangles.filter (fun T => decide (e ∈ T.Edges))).length

/-- Number of triangles that use the vertex id `v`. -/
def VertexUse (S : FIcoSphere) (v : Int) : Nat :=
  (S.Triangles.filter (fun T => decide (v ∈ T.VertexIds))).length

/-- The undirected edges: each directed edge, written smaller id first, once. -/
def UndirectedEdges (S : FIcoSphere) : List (Int × Int) :=
  (S.DirectedEdges.map (fun e => (min e.1 e.2, max e.1 e.2))).dedup

end FIcoSphere

end NavGrid

/-! ## Concrete inputs -/

namespace NavGrid

/-- A ladder of box extent `(50, 50, 100)` on a valid grid of the given tile
size, untransformed (identity component-to-world and rotation), with no
neighbours and path points still at the origin. -/
def sampleLadder (TileSize : Scalar) : UNavLadderComponent where
  BoxExtent := ⟨50, 50, 100⟩
  Grid := some ⟨TileSize⟩
  NeighbourhoodShape := ⟨⟨0, 0, 0⟩⟩
  PawnLocationOffset := ⟨0, 0, 0⟩
  BottomPathPoint := ⟨⟨0, 0, 0⟩⟩
  TopPathPoint := ⟨⟨0, 0, 0⟩⟩
  Neighbours := []
  ComponentToWorld := id
  ComponentRotation := id

/-- A ladder like `sampleLadder` with the given box extent and grid. -/
def sampleLadderBox (BoxExtent : FVector) (Grid : Option ANavGrid) : UNavLadderComponent where
  BoxExtent := BoxExtent
  Grid := Grid
  NeighbourhoodShape := ⟨⟨0, 0, 0⟩⟩
  PawnLocationOffset := ⟨0, 0, 0⟩
  BottomPathPoint := ⟨⟨0, 0, 0⟩⟩
  TopPathPoint := ⟨⟨0, 0, 0⟩⟩
  Neighbours := []
  ComponentToWorld := id
  ComponentRotation := id

/-- A neighbouring tile at the given pawn location that is never obstructed. -/
def sampleTile (PawnLocation : FVector) : UNavTileComponent where
  Id := 0
  GetPawnLocation := PawnLocation
  Obstructed := fun _ _ => false

/-- Exact squared Euclidean distance between two points with finite
coordinates, in units of 2^-298: no rounding takes place. -/
def FVector.ExactDistSq (a b : FVector) : Int :=
  (a.X.toInt - b.X.toInt) * (a.X.toInt - b.X.toInt)
    + (a.Y.toInt - b.Y.toInt) * (a.Y.toInt - b.Y.toInt)
    + (a.Z.toInt - b.Z.toInt) * (a.Z.toInt - b.Z.toInt)

end NavGrid

/-! ## Helper lemmas -/

namespace NavGrid

open UNavLadderComponent

namespace Float32

/-- A strict comparison implies the non-strict one. -/
theorem lt_imp_le {a b : Float32} (h : a < b) : a ≤ b := by
  have h1 : Float32.lt a b = true := h
  show Float32.le a b = true
  simp only [Float32.lt, Float32.le, Bool.and_eq_true, decide_eq_true_eq] at h1 ⊢
  exact ⟨h1.1, Int.le_of_lt h1.2⟩

/-- Without NaN, a failed strict comparison gives the reverse non-strict one. -/
theorem not_lt_imp_ge {a b : Float32} (ha : a.isNaN = false) (hb : b.isNaN = false)
    (h : ¬ a < b) : b ≤ a := by
  have h1 : ¬ Float32.lt a b = true := h
  show Float32.le b a = true
  simp only [Float32.lt, Float32.le, ha, hb, Bool.not_false, Bool.true_and,
    decide_eq_true_eq] at h1 ⊢
  exact Int.not_lt.mp h1

/-- A number that is not NaN compares equal to itself. -/
theorem le_refl_of_not_nan {a : Float32} (ha : a.isNaN = false) : a ≤ a := by
  show Float32.le a a = true
  simp [Float32.le, ha]

/-- A comparison that holds has no NaN operand. -/
theorem not_nan_of_le {a b : Float32} (h : a ≤ b) :
    a.isNaN = false ∧ b.isNaN = false := by
  have h1 : Float32.le a b = true := h
  simp only [Float32.le, Bool.and_eq_true, Bool.not_eq_true', decide_eq_true_eq] at h1
  exact ⟨h1.1.1, h1.1.2⟩

/-- With a NaN operand no strict comparison holds. -/
theorem not_lt_of_nan {a b : Float32} (h : a.isNaN = true ∨ b.isNaN = true) :
    ¬ a < b := by
  intro hlt
  have h1 : Float32.lt a b = true := hlt
  simp only [Float32.lt, Bool.and_eq_true, Bool.not_eq_true', decide_eq_true_eq] at h1
  rcases h with h | h
  · rw [h1.1.1] at h; cases h
  · rw [h1.1.2] at h; cases h

theorem pow2_eq (k : Nat) : pow2 k = 2 ^ k := by
  simp [pow2, Nat.shiftLeft_eq]

theorem log2Aux_spec : ∀ (fuel n : Nat), n ≤ fuel → 0 < n →
    2 ^ log2Aux fuel n ≤ n ∧ n < 2 ^ (log2Aux fuel n + 1) := by
  intro fuel
  induction fuel with
  | zero => intro n h1 h2; omega
  | succ f ih =>
    intro n h1 h2
    unfold log2Aux
    by_cases h : n < 2
    · simp only [h, if_true]
      constructor
      · simp; omega
      · simp; omega
    · simp only [h, if_false]
      have hn : n / 2 ≤ f := by omega
      have hp : 0 < n / 2 := by omega
      obtain ⟨a, b⟩ := ih (n / 2) hn hp
      constructor
      · rw [pow_succ]; omega
      · rw [pow_succ]; omega

theorem log2_spec {n : Nat} (h : 0 < n) : 2 ^ log2 n ≤ n ∧ n < 2 ^ (log2 n + 1) :=
  log2Aux_spec n n (Nat.le_refl n) h

theorem log2_lt_of_lt_pow {n k : Nat} (h : 0 < n) (hk : n < 2 ^ k) : log2 n < k := by
  have h1 := (log2_spec h).1
  exact (Nat.pow_lt_pow_iff_right (by decide : 1 < 2)).mp (lt_of_le_of_lt h1 hk)

theorem le_log2_of_pow_le {n k : Nat} (hk : 2 ^ k ≤ n) : k ≤ log2 n := by
  have h : 0 < n := lt_of_lt_of_le (Nat.two_pow_pos k) hk
  have h1 := (log2_spec h).2
  have := (Nat.pow_lt_pow_iff_right (by decide : 1 < 2)).mp (lt_of_le_of_lt hk h1)
  omega

theorem ofMag_sign (neg : Bool) (n : Nat) : (ofMag neg n).sign = neg := by
  unfold ofMag
  split
  · rfl
  · split <;> rfl

theorem ofMag_isNaN (neg : Bool) (n : Nat) : (ofMag neg n).isNaN = false := by
  unfold ofMag
  split
  · rfl
  · rename_i h277
    split
    · rfl
    · rename_i h23
      have hpos : 0 < n := by omega
      have hlt : n < 2 ^ 277 := by rw [← pow2_eq]; omega
      have h1 := log2_lt_of_lt_pow hpos hlt
      have hne : (log2 n - 22) % 256 ≠ 255 := by omega
      simp [isNaN, hne]

theorem zero_facts : (Float32.ofNat 0).isNaN = false ∧ (Float32.ofNat 0).toInt = 0 := by decide

set_option maxRecDepth 100000 in
theorem two_facts : (Float32.ofNat 2).isNaN = false ∧ (Float32.ofNat 2).isInf = false
    ∧ (Float32.ofNat 2).isZero = false ∧ (Float32.ofNat 2).sign = false := by decide

theorem le_zero_of_sign {f : Float32} (hs : f.sign = true) (hn : f.isNaN = false) :
    f ≤ 0 := by
  show Float32.le f (Float32.ofNat 0) = true
  simp only [Float32.le, hn, zero_facts.1, zero_facts.2, Bool.not_false, Bool.true_and,
    decide_eq_true_eq]
  simp only [toInt, hs, if_true]
  omega

theorem mag_pos_of_isInf {f : Float32} (h : f.isInf = true) : 0 < f.mag := by
  simp only [isInf, Bool.and_eq_true, beq_iff_eq] at h
  unfold mag
  rw [if_neg (by omega)]
  have : 0 < pow2 (f.exponent.val - 1) := by rw [pow2_eq]; exact Nat.two_pow_pos _
  exact Nat.mul_pos (by omega) this

theorem div_two_nonpos {t : Float32} (h : t ≤ 0) : t / 2 ≤ 0 := by
  have h1 : Float32.le t (Float32.ofNat 0) = true := h
  simp only [Float32.le, zero_facts.1, zero_facts.2, Bool.not_false, Bool.and_true,
    Bool.and_eq_true, Bool.not_eq_true', decide_eq_true_eq] at h1
  obtain ⟨hnan, hle⟩ := h1
  show Float32.div t (Float32.ofNat 2) ≤ 0
  unfold Float32.div
  simp only [hnan, two_facts.1, two_facts.2.1, two_facts.2.2.1, two_facts.2.2.2,
    Bool.or_self, Bool.false_eq_true, if_false, Bool.bne_false]
  by_cases hs : t.sign = true
  · by_cases hinf : t.isInf = true
    · simp only [hinf, if_true, hs]
      exact le_zero_of_sign rfl rfl
    · simp only [hinf, if_false, hs]
      exact le_zero_of_sign (ofMag_sign _ _) (ofMag_isNaN _ _)
  · have hs' : t.sign = false := by simpa using hs
    have hmag : t.mag = 0 := by
      simp only [toInt, hs', Bool.false_eq_true, if_false] at hle
      omega
    have hinf : t.isInf = false := by
      by_contra hc
      have := mag_pos_of_isInf (by simpa using hc)
      omega
    simp only [hinf, Bool.false_eq_true, if_false, hs', hmag, Nat.zero_mul, Nat.zero_div,
      Nat.zero_mod, if_true, Nat.mul_zero, Nat.add_zero]
    decide

/-- Rounding a quotient moves it up by at most one. -/
theorem roundShift_bounds (m t : Nat) :
    m / 2 ^ t ≤ roundShift m t ∧ roundShift m t ≤ m / 2 ^ t + 1 := by
  unfold roundShift
  simp only [pow2_eq]
  split <;> omega

/-- Rounding a quotient is monotone in the dividend. -/
theorem roundShift_mono {m n : Nat} (t : Nat) (h : m ≤ n) :
    roundShift m t ≤ roundShift n t := by
  have hd : 0 < 2 ^ t := Nat.two_pow_pos t
  have hq : m / 2 ^ t ≤ n / 2 ^ t := Nat.div_le_div_right h
  rcases Nat.lt_or_ge (m / 2 ^ t) (n / 2 ^ t) with hlt | hge
  · exact le_trans (roundShift_bounds m t).2 (le_trans hlt (roundShift_bounds n t).1)
  · have heq : m / 2 ^ t = n / 2 ^ t := le_antisymm hq hge
    have hm := Nat.div_add_mod m (2 ^ t)
    have hn := Nat.div_add_mod n (2 ^ t)
    have hr : m % 2 ^ t ≤ n % 2 ^ t := by
      rw [heq] at hm
      omega
    unfold roundShift
    simp only [pow2_eq, heq]
    split
    · rename_i hup
      have : 2 ^ t < 2 * (n % 2 ^ t) ∨ 2 * (n % 2 ^ t) = 2 ^ t ∧ n / 2 ^ t % 2 = 1 := by
        rcases hup with h1 | ⟨h1, h2⟩
        · left; omega
        · rcases Nat.lt_or_ge (m % 2 ^ t) (n % 2 ^ t) with h3 | h3
          · left; omega
          · right; exact ⟨by omega, h2⟩
      rw [if_pos this]
    · split <;> omega

/-- Magnitudes below 2^24 units are on the grid. -/
theorem roundMag_small {n : Nat} (h : n < 16777216) : roundMag n 0 = n := by
  unfold roundMag
  by_cases h0 : n = 0
  · simp [h0]
  · rw [if_neg h0]
    have hpos : 0 < n := Nat.pos_of_ne_zero h0
    have hl : log2 n < 24 := log2_lt_of_lt_pow hpos (by norm_num; exact h)
    have hsh : max ((log2 n : Int) + 0 - 23) 0 = 0 := by
      apply max_eq_right
      omega
    simp only [hsh]
    simp [pow2_eq]

/-- From 2^24 units on, the grid spacing is `2^(log2 n - 23)`. -/
theorem roundMag_large {n : Nat} (h : 16777216 ≤ n) :
    roundMag n 0 = roundShift n (log2 n - 23) * 2 ^ (log2 n - 23) := by
  unfold roundMag
  have h0 : n ≠ 0 := by omega
  rw [if_neg h0]
  have hl : 24 ≤ log2 n := le_log2_of_pow_le (by norm_num; exact h)
  have hsh : max ((log2 n : Int) + 0 - 23) 0 = ((log2 n - 23 : Nat) : Int) := by
    rw [max_eq_left (by omega)]
    omega
  simp only [hsh, sub_zero]
  rw [if_neg (by omega)]
  simp [pow2_eq]

/-- The rounded quotient of a magnitude of 2^24 units or more has 24 bits, or is 2^24. -/
theorem roundShift_range {n : Nat} (h : 16777216 ≤ n) :
    8388608 ≤ roundShift n (log2 n - 23) ∧ roundShift n (log2 n - 23) ≤ 16777216 := by
  have hpos : 0 < n := by omega
  have hl : 24 ≤ log2 n := le_log2_of_pow_le (by norm_num; exact h)
  obtain ⟨h1, h2⟩ := log2_spec hpos
  have hd : 0 < 2 ^ (log2 n - 23) := Nat.two_pow_pos _
  have e1 : 2 ^ log2 n = 8388608 * 2 ^ (log2 n - 23) := by
    have : log2 n = 23 + (log2 n - 23) := by omega
    conv_lhs => rw [this, pow_add]
    norm_num
  have e2 : 2 ^ (log2 n + 1) = 16777216 * 2 ^ (log2 n - 23) := by
    have : log2 n + 1 = 24 + (log2 n - 23) := by omega
    conv_lhs => rw [this, pow_add]
    norm_num
  have q1 : 8388608 ≤ n / 2 ^ (log2 n - 23) := by
    rw [Nat.le_div_iff_mul_le hd]
    omega
  have q2 : n / 2 ^ (log2 n - 23) < 16777216 := by
    rw [Nat.div_lt_iff_lt_mul hd]
    omega
  have b := roundShift_bounds n (log2 n - 23)
  omega

theorem log2_mono {m n : Nat} (hm : 0 < m) (h : m ≤ n) : log2 m ≤ log2 n :=
  le_log2_of_pow_le (le_trans (log2_spec hm).1 h)

/-- A rounded magnitude of 2^24 units or more stays within its binade, ends included. -/
theorem roundMag_large_bounds {n : Nat} (h : 16777216 ≤ n) :
    2 ^ log2 n ≤ roundMag n 0 ∧ roundMag n 0 ≤ 2 ^ (log2 n + 1) := by
  have hl : 24 ≤ log2 n := le_log2_of_pow_le (by norm_num; exact h)
  have e1 : 2 ^ log2 n = 8388608 * 2 ^ (log2 n - 23) := by
    have : log2 n = 23 + (log2 n - 23) := by omega
    conv_lhs => rw [this, pow_add]
    norm_num
  have e2 : 2 ^ (log2 n + 1) = 16777216 * 2 ^ (log2 n - 23) := by
    have : log2 n + 1 = 24 + (log2 n - 23) := by omega
    conv_lhs => rw [this, pow_add]
    norm_num
  rw [roundMag_large h, e1, e2]
  obtain ⟨a, b⟩ := roundShift_range h
  exact ⟨Nat.mul_le_mul_right _ a, Nat.mul_le_mul_right _ b⟩

/-- Rounding to the binary32 grid is monotone. -/
theorem roundMag_mono {m n : Nat} (h : m ≤ n) : roundMag m 0 ≤ roundMag n 0 := by
  rcases Nat.lt_or_ge n 16777216 with hn | hn
  · rw [roundMag_small hn, roundMag_small (lt_of_le_of_lt h hn)]
    exact h
  · rcases Nat.lt_or_ge m 16777216 with hm | hm
    · rw [roundMag_small hm]
      have hl : 24 ≤ log2 n := le_log2_of_pow_le (by norm_num; exact hn)
      have hp : 2 ^ 24 ≤ 2 ^ log2 n := Nat.pow_le_pow_right (by decide) hl
      have := (roundMag_large_bounds hn).1
      norm_num at hp
      omega
    · have hmpos : 0 < m := by omega
      have hmono := log2_mono hmpos h
      rcases Nat.lt_or_ge (log2 m) (log2 n) with hlt | hge
      · have h1 := (roundMag_large_bounds hm).2
        have h2 := (roundMag_large_bounds hn).1
        have hp : 2 ^ (log2 m + 1) ≤ 2 ^ log2 n := Nat.pow_le_pow_right (by decide) hlt
        omega
      · have heq : log2 m = log2 n := le_antisymm hmono hge
        rw [roundMag_large hm, roundMag_large hn, heq]
        exact Nat.mul_le_mul_right _ (roundShift_mono _ h)

/-- The magnitude of infinity, 2^277 units, written as `2^23 * 2^254`. -/
theorem pow2_277 : pow2 277 = 8388608 * 2 ^ 254 := by
  rw [pow2_eq, show 277 = 23 + 254 from rfl, pow_add]
  rfl

/-- Reading back a subnormal magnitude. -/
theorem mag_ofMag_small (neg : Bool) {n : Nat} (h : n < 8388608) : (ofMag neg n).mag = n := by
  have h277 : ¬ pow2 277 ≤ n := by
    rw [pow2_277]
    have : 8388608 * 1 ≤ 8388608 * 2 ^ 254 := Nat.mul_le_mul_left _ (Nat.two_pow_pos 254)
    omega
  unfold ofMag
  rw [if_neg h277, dif_pos h]
  simp [mag]

/-- Reading back a normal magnitude `q * 2^k` with a 24-bit `q`. -/
theorem mag_ofMag_normal (neg : Bool) {q k : Nat} (hq1 : 8388608 ≤ q) (hq2 : q < 16777216)
    (hk : k ≤ 253) : (ofMag neg (q * 2 ^ k)).mag = q * 2 ^ k := by
  have hd : 0 < 2 ^ k := Nat.two_pow_pos k
  have hlow : 2 ^ (23 + k) ≤ q * 2 ^ k := by
    rw [pow_add]
    exact Nat.mul_le_mul_right _ (by norm_num; exact hq1)
  have hhigh : q * 2 ^ k < 2 ^ (24 + k) := by
    rw [pow_add]
    exact Nat.mul_lt_mul_of_pos_right (by norm_num; exact hq2) hd
  have hpos : 0 < q * 2 ^ k := Nat.mul_pos (by omega) hd
  have hlog : log2 (q * 2 ^ k) = 23 + k := by
    have a := le_log2_of_pow_le hlow
    have b := log2_lt_of_lt_pow hpos hhigh
    omega
  have h277 : ¬ pow2 277 ≤ q * 2 ^ k := by
    rw [pow2_277]
    have h1 : 2 ^ k ≤ 2 ^ 253 := Nat.pow_le_pow_right (by decide) hk
    have h2 : q * 2 ^ k ≤ 16777215 * 2 ^ 253 := Nat.mul_le_mul (by omega) h1
    have h3 : (2 : Nat) ^ 254 = 2 * 2 ^ 253 := by rw [pow_succ]; omega
    have h4 : 0 < 2 ^ 253 := Nat.two_pow_pos 253
    rw [h3]
    omega
  have h23 : ¬ q * 2 ^ k < 8388608 := by
    have : 2 ^ 23 ≤ 2 ^ (23 + k) := Nat.pow_le_pow_right (by decide) (by omega)
    norm_num at this
    omega
  unfold ofMag
  rw [if_neg h277, dif_neg h23]
  have hexp : (log2 (q * 2 ^ k) - 22) % 256 = k + 1 := by
    rw [hlog]; omega
  have hman : (q * 2 ^ k / pow2 (log2 (q * 2 ^ k) - 23)) % 8388608 = q - 8388608 := by
    rw [hlog, pow2_eq]
    have : 23 + k - 23 = k := by omega
    rw [this, Nat.mul_div_cancel _ hd]
    omega
  show (if (log2 (q * 2 ^ k) - 22) % 256 = 0
      then (q * 2 ^ k / pow2 (log2 (q * 2 ^ k) - 23)) % 8388608
      else (8388608 + (q * 2 ^ k / pow2 (log2 (q * 2 ^ k) - 23)) % 8388608)
        * pow2 ((log2 (q * 2 ^ k) - 22) % 256 - 1)) = q * 2 ^ k
  rw [hexp, hman, if_neg (by omega), pow2_eq]
  have h1 : k + 1 - 1 = k := by omega
  have h2 : 8388608 + (q - 8388608) = q := by omega
  rw [h1, h2]

/-- Reading back an overflowing magnitude gives the magnitude of infinity. -/
theorem mag_ofMag_overflow (neg : Bool) {n : Nat} (h : pow2 277 ≤ n) :
    (ofMag neg n).mag = pow2 277 := by
  unfold ofMag
  rw [if_pos h, pow2_277]
  show (if (255 : Nat) = 0 then 0 else (8388608 + 0) * pow2 (255 - 1)) = 8388608 * 2 ^ 254
  rw [if_neg (by decide), pow2_eq]

/-- Reading back a rounded magnitude: the magnitude itself, capped at infinity. -/
theorem mag_ofMag_roundMag (neg : Bool) (n : Nat) :
    (ofMag neg (roundMag n 0)).mag = min (roundMag n 0) (pow2 277) := by
  rcases Nat.lt_or_ge (roundMag n 0) (pow2 277) with hlt | hge
  · rw [min_eq_left (le_of_lt hlt)]
    rcases Nat.lt_or_ge n 16777216 with hn | hn
    · rw [roundMag_small hn]
      rcases Nat.lt_or_ge n 8388608 with hs | hs
      · exact mag_ofMag_small neg hs
      · have := mag_ofMag_normal neg hs hn (Nat.zero_le 253)
        simpa using this
    · have hr := roundMag_large hn
      obtain ⟨r1, r2⟩ := roundShift_range hn
      rw [hr] at hlt ⊢
      rw [pow2_eq] at hlt
      have hd : 0 < 2 ^ (log2 n - 23) := Nat.two_pow_pos _
      rcases Nat.lt_or_ge (roundShift n (log2 n - 23)) 16777216 with hq | hq
      · have hk : log2 n - 23 ≤ 253 := by
          have h1 : 2 ^ (23 + (log2 n - 23)) ≤ roundShift n (log2 n - 23) * 2 ^ (log2 n - 23) := by
            rw [pow_add]
            exact Nat.mul_le_mul_right _ (by norm_num; exact r1)
          have h2 := (Nat.pow_lt_pow_iff_right (by decide : 1 < 2)).mp (lt_of_le_of_lt h1 hlt)
          omega
        exact mag_ofMag_normal neg r1 hq hk
      · have hq' : roundShift n (log2 n - 23) = 16777216 := le_antisymm r2 hq
        rw [hq'] at hlt ⊢
        have e : 16777216 * 2 ^ (log2 n - 23) = 8388608 * 2 ^ (log2 n - 23 + 1) := by
          rw [pow_succ]
          omega
        rw [e] at hlt ⊢
        have hk : log2 n - 23 + 1 ≤ 253 := by
          have h1 : 2 ^ (23 + (log2 n - 23 + 1)) ≤ 8388608 * 2 ^ (log2 n - 23 + 1) := by
            rw [pow_add]
            exact Nat.mul_le_mul_right _ (by norm_num)
          have h2 := (Nat.pow_lt_pow_iff_right (by decide : 1 < 2)).mp (lt_of_le_of_lt h1 hlt)
          omega
        exact mag_ofMag_normal neg (Nat.le_refl _) (by norm_num) hk
  · rw [min_eq_right hge]
    exact mag_ofMag_overflow neg hge

/-- A number that is neither NaN nor infinite has its exponent below 255. -/
theorem exponent_lt_of_finite {f : Float32} (hn : f.isNaN = false) (hi : f.isInf = false) :
    f.exponent.val < 255 := by
  have hlt := f.exponent.isLt
  by_contra hc
  have he : f.exponent.val = 255 := by omega
  by_cases hm : f.mantissa.val = 0
  · simp [isInf, he, hm] at hi
  · simp [isNaN, he, hm] at hn

/-- A finite magnitude is below that of infinity. -/
theorem mag_lt_of_finite {f : Float32} (hn : f.isNaN = false) (hi : f.isInf = false) :
    f.mag < pow2 277 := by
  have he := exponent_lt_of_finite hn hi
  have hm := f.mantissa.isLt
  rw [pow2_277]
  unfold mag
  split
  · have : 8388608 * 1 ≤ 8388608 * 2 ^ 254 := Nat.mul_le_mul_left _ (Nat.two_pow_pos 254)
    omega
  · rw [pow2_eq]
    have h1 : 2 ^ (f.exponent.val - 1) ≤ 2 ^ 253 := Nat.pow_le_pow_right (by decide) (by omega)
    have h2 : (8388608 + f.mantissa.val) * 2 ^ (f.exponent.val - 1)
        ≤ 16777215 * 2 ^ 253 := Nat.mul_le_mul (by omega) h1
    have h3 : (2 : Nat) ^ 254 = 2 * 2 ^ 253 := by rw [pow_succ]; omega
    have h4 : 0 < 2 ^ 253 := Nat.two_pow_pos 253
    rw [h3]
    omega

/-- An infinity has the magnitude 2^277. -/
theorem mag_of_isInf {f : Float32} (h : f.isInf = true) : f.mag = pow2 277 := by
  simp only [isInf, Bool.and_eq_true, beq_iff_eq] at h
  rw [pow2_277]
  unfold mag
  rw [if_neg (by omega), h.1, h.2, pow2_eq]

/-- Rounding integers to binary32 values is monotone. -/
theorem roundInt_mono {s1 s2 : Int} (h : s1 ≤ s2) : roundInt s1 ≤ roundInt s2 := by
  unfold roundInt
  by_cases h1 : 0 ≤ s1
  · have h2 : 0 ≤ s2 := le_trans h1 h
    rw [if_pos h1, if_pos h2]
    have hn : s1.natAbs ≤ s2.natAbs := by omega
    have := roundMag_mono hn
    have hm : min (roundMag s1.natAbs 0) (pow2 277) ≤ min (roundMag s2.natAbs 0) (pow2 277) :=
      min_le_min_right _ this
    exact Int.ofNat_le.mpr hm
  · rw [if_neg h1]
    by_cases h2 : 0 ≤ s2
    · rw [if_pos h2]
      omega
    · rw [if_neg h2]
      have hn : s2.natAbs ≤ s1.natAbs := by omega
      have := roundMag_mono hn
      have hm : min (roundMag s2.natAbs 0) (pow2 277) ≤ min (roundMag s1.natAbs 0) (pow2 277) :=
        min_le_min_right _ this
      have := Int.ofNat_le.mpr hm
      omega

/-- The sum of two finite numbers is the rounded exact sum, and is not NaN. -/
theorem add_finite {a c : Float32} (ha : a.isNaN = false) (hai : a.isInf = false)
    (hc : c.isNaN = false) (hci : c.isInf = false) :
    (a + c).isNaN = false ∧ (a + c).toInt = roundInt (a.toInt + c.toInt) := by
  show (Float32.add a c).isNaN = false ∧ (Float32.add a c).toInt = roundInt (a.toInt + c.toInt)
  unfold Float32.add
  simp only [ha, hc, hai, hci, Bool.or_self, Bool.false_eq_true, if_false]
  generalize a.toInt + c.toInt = s
  generalize (a.sign && c.sign) = z
  by_cases hs : s = 0
  · simp only [hs, if_true]
    constructor
    · cases z <;> rfl
    · have hr : roundInt 0 = 0 := by
        simp [roundInt, roundMag]
      rw [hr]
      cases z <;> rfl
  · simp only [hs, if_false]
    refine ⟨ofMag_isNaN _ _, ?_⟩
    have hv : ∀ (g : Bool) (n : Nat),
        (ofMag g (roundMag n 0)).toInt
          = if g then -((min (roundMag n 0) (pow2 277) : Nat) : Int)
            else ((min (roundMag n 0) (pow2 277) : Nat) : Int) := by
      intro g n
      unfold toInt
      rw [ofMag_sign, mag_ofMag_roundMag]
    rw [hv]
    unfold roundInt
    by_cases hneg : s < 0
    · have h0 : ¬ (0 : Int) ≤ s := by omega
      simp only [hneg, decide_True, if_true, h0, if_false]
    · have h0 : (0 : Int) ≤ s := by omega
      simp only [hneg, decide_False, h0, if_true, Bool.false_eq_true, if_false]

/-- Adding a finite number to an infinity leaves the infinity. -/
theorem add_inf_left {a c : Float32} (hai : a.isInf = true) (hc : c.isNaN = false)
    (hci : c.isInf = false) : a + c = a := by
  have ha : a.isNaN = false := by
    simp only [isInf, Bool.and_eq_true, beq_iff_eq] at hai
    simp [isNaN, hai.2]
  show Float32.add a c = a
  unfold Float32.add
  simp [ha, hc, hai, hci]

/-- The value of a number that is not NaN lies between the two infinities. -/
theorem toInt_bounds {f : Float32} (hn : f.isNaN = false) :
    -((pow2 277 : Nat) : Int) ≤ f.toInt ∧ f.toInt ≤ ((pow2 277 : Nat) : Int) := by
  have hm : f.mag ≤ pow2 277 := by
    by_cases hi : f.isInf = true
    · exact le_of_eq (mag_of_isInf hi)
    · exact le_of_lt (mag_lt_of_finite hn (by simpa using hi))
  unfold toInt
  split <;> omega

/-- Adding a finite number on the right is monotone: the rounded sums of two
ordered numbers are ordered the same way. -/
theorem add_right_mono {a b c : Float32} (hab : a ≤ b) (hc : c.isNaN = false)
    (hci : c.isInf = false) : a + c ≤ b + c := by
  obtain ⟨ha, hb⟩ := not_nan_of_le hab
  have hle : a.toInt ≤ b.toInt := by
    have h1 : Float32.le a b = true := hab
    simp only [Float32.le, ha, hb, Bool.not_false, Bool.true_and, decide_eq_true_eq] at h1
    exact h1
  have key : ∀ x y : Float32, x.isNaN = false → y.isNaN = false → x.toInt ≤ y.toInt → x ≤ y := by
    intro x y hx hy hxy
    show Float32.le x y = true
    simp [Float32.le, hx, hy, hxy]
  have hsgn : ∀ f : Float32, f.toInt = (f.mag : Int) ∨ f.toInt = -(f.mag : Int) := by
    intro f
    unfold toInt
    split
    · right; rfl
    · left; rfl
  by_cases hai : a.isInf = true
  · rw [add_inf_left hai hc hci]
    by_cases hbi : b.isInf = true
    · rw [add_inf_left hbi hc hci]
      exact hab
    · have hbi' : b.isInf = false := by simpa using hbi
      obtain ⟨hn, _⟩ := add_finite hb hbi' hc hci
      apply key _ _ ha hn
      have hbm := mag_lt_of_finite hb hbi'
      have ham := mag_of_isInf hai
      have hlow := (toInt_bounds hn).1
      rcases hsgn a with h1 | h1 <;> rcases hsgn b with h2 | h2 <;> omega
  · have hai' : a.isInf = false := by simpa using hai
    obtain ⟨hna, hva⟩ := add_finite ha hai' hc hci
    by_cases hbi : b.isInf = true
    · rw [add_inf_left hbi hc hci]
      apply key _ _ hna hb
      have ham := mag_lt_of_finite ha hai'
      have hbm := mag_of_isInf hbi
      have hup := (toInt_bounds hna).2
      rcases hsgn a with h1 | h1 <;> rcases hsgn b with h2 | h2 <;> omega
    · have hbi' : b.isInf = false := by simpa using hbi
      obtain ⟨hnb, hvb⟩ := add_finite hb hbi' hc hci
      apply key _ _ hna hnb
      rw [hva, hvb]
      exact roundInt_mono (by omega)

/-- The strict comparison is asymmetric. -/
theorem lt_asymm_float {a b : Float32} (h : a < b) : ¬ b < a := by
  intro h2
  have h1 : Float32.lt a b = true := h
  have h3 : Float32.lt b a = true := h2
  simp only [Float32.lt, Bool.and_eq_true, Bool.not_eq_true', decide_eq_true_eq] at h1 h3
  omega

/-- Adding a finite number to a number that is not NaN does not give NaN. -/
theorem add_finite_not_nan {a c : Float32} (ha : a.isNaN = false) (hc : c.isNaN = false)
    (hci : c.isInf = false) : (a + c).isNaN = false := by
  by_cases hai : a.isInf = true
  · rw [add_inf_left hai hc hci]
    exact ha
  · exact (add_finite ha (by simpa using hai) hc hci).1

set_option maxRecDepth 100000 in
/-- The constant 15 is an ordinary finite number. -/
theorem fifteen_facts : (Float32.ofNat 15).isNaN = false ∧ (Float32.ofNat 15).isInf = false := by
  decide

/-- Half of a number that is not NaN is not NaN. -/
theorem div_two_not_nan {t : Float32} (h : t.isNaN = false) : (t / 2).isNaN = false := by
  show (Float32.div t (Float32.ofNat 2)).isNaN = false
  unfold Float32.div
  simp only [h, two_facts.1, two_facts.2.1, two_facts.2.2.1, two_facts.2.2.2,
    Bool.or_self, Bool.false_eq_true, if_false, Bool.bne_false]
  split
  · cases t.sign <;> rfl
  · exact ofMag_isNaN _ _

end Float32

/-- Without NaN the first argument of `FMath::Max` is at most the result. -/
theorem FMath_Max_ge_left {A B : Scalar} (hA : A.isNaN = false) (hB : B.isNaN = false) :
    A ≤ FMath.Max A B := by
  unfold FMath.Max
  split
  · exact Float32.le_refl_of_not_nan hA
  · rename_i h
    have h1 : ¬ Float32.le B A = true := h
    show Float32.le A B = true
    simp only [Float32.le, hA, hB, Bool.not_false, Bool.true_and, decide_eq_true_eq] at h1 ⊢
    omega

/-- The ladder's loop only ever extends `OutNeighbours` by the filtered rest. -/
theorem GetUnobstructedNeighboursLoop_eq (Sqrt : Scalar → Scalar) (L : UNavLadderComponent)
    (Cap : UCapsuleComponent) (Ns Out : List UNavTileComponent) :
    GetUnobstructedNeighboursLoop Sqrt L Cap Ns Out =
      Out ++ Ns.filter (fun N => !N.Obstructed (NeighbourTracePoint Sqrt L N) Cap) := by
  induction Ns generalizing Out with
  | nil => simp [GetUnobstructedNeighboursLoop]
  | cons N rest ih =>
    unfold GetUnobstructedNeighboursLoop
    by_cases h : N.Obstructed (NeighbourTracePoint Sqrt L N) Cap = true
    · simp [h, ih]
    · simp [h, ih]

/-- The whole call as a filter of the neighbour list. -/
theorem GetUnobstructedNeighbours_eq_filter (Sqrt : Scalar → Scalar) (L : UNavLadderComponent)
    (Cap : UCapsuleComponent) (Out : List UNavTileComponent) :
    GetUnobstructedNeighbours Sqrt L Cap Out =
      L.GetNeighbours.filter (fun N => !N.Obstructed (NeighbourTracePoint Sqrt L N) Cap) := by
  simp [GetUnobstructedNeighbours, TArray.Empty, GetUnobstructedNeighboursLoop_eq]

/-- Removing the point at index `GetNumberOfSplinePoints() - 1` undoes the last
`AddSplinePoint`. -/
theorem RemoveSplinePoint_last (S : USplineComponent) (P : FVector) :
    (S.AddSplinePoint P).RemoveSplinePoint ((S.AddSplinePoint P).GetNumberOfSplinePoints - 1)
      = S := by
  cases S with
  | mk Ps =>
    have hlen : ((Ps ++ [P]).length : Int) - 1 = (Ps.length : Int) := by
      simp
    simp only [USplineComponent.AddSplinePoint, USplineComponent.RemoveSplinePoint,
      USplineComponent.GetNumberOfSplinePoints, hlen]
    have hcond : (0 : Int) ≤ (Ps.length : Int) ∧ (Ps.length : Int) < ((Ps ++ [P]).length : Int) := by
      constructor
      · exact Int.natCast_nonneg _
      · simp
    rw [if_pos hcond, Int.toNat_ofNat, List.eraseIdx_append_of_length_le (Nat.le_refl _)]
    simp

/-- The points of the spline after `AddSplinePoints`: the old ones, the entry
end, and the exit point. -/
theorem AddSplinePoints_Points (Sqrt : Scalar → Scalar) (L : UNavLadderComponent)
    (FromPos : FVector) (OutSpline : USplineComponent) (LastTile : Bool) :
    (L.AddSplinePoints Sqrt FromPos OutSpline LastTile).Points =
      OutSpline.Points ++
        [ (if (L.TopLocation - FromPos).Size Sqrt > (L.BottomLocation - FromPos).Size Sqrt
           then L.BottomLocation else L.TopLocation),
          (if LastTile = true then L.PawnLocationOffset + L.GetComponentLocation
           else if (L.TopLocation - FromPos).Size Sqrt > (L.BottomLocation - FromPos).Size Sqrt
           then L.TopLocation else L.BottomLocation) ] := by
  unfold UNavLadderComponent.AddSplinePoints
  by_cases hd : (L.TopLocation - FromPos).Size Sqrt > (L.BottomLocation - FromPos).Size Sqrt
  · cases LastTile
    · simp [hd, USplineComponent.AddSplinePoint]
    · simp only [hd, if_true, RemoveSplinePoint_last]
      simp [USplineComponent.AddSplinePoint]
  · cases LastTile
    · simp [hd, USplineComponent.AddSplinePoint]
    · simp only [hd, if_true, if_false, RemoveSplinePoint_last]
      simp [USplineComponent.AddSplinePoint]

/-- The first point `AddSplinePoints` appends, read at the index just past the
old points. -/
theorem AddSplinePoints_first (Sqrt : Scalar → Scalar) (L : UNavLadderComponent)
    (FromPos : FVector) (OutSpline : USplineComponent) (LastTile : Bool) :
    (L.AddSplinePoints Sqrt FromPos OutSpline LastTile).Points[OutSpline.Points.length]? =
      some (if (L.TopLocation - FromPos).Size Sqrt > (L.BottomLocation - FromPos).Size Sqrt
            then L.BottomLocation else L.TopLocation) := by
  rw [AddSplinePoints_Points, List.getElem?_append_right (Nat.le_refl _), Nat.sub_self]
  rfl

/-- The triangle array after `MakeIcosahedron`, whatever the sphere held before. -/
theorem MakeIcosahedron_Triangles (Phi : Scalar) (S : FIcoSphere) :
    (FIcoSphere.MakeIcosahedron Phi S).Triangles =
      [⟨0, 11, 5⟩, ⟨0, 5, 1⟩, ⟨0, 1, 7⟩, ⟨0, 7, 10⟩, ⟨0, 10, 11⟩,
       ⟨1, 5, 9⟩, ⟨5, 11, 4⟩, ⟨11, 10, 2⟩, ⟨10, 7, 6⟩, ⟨7, 1, 8⟩,
       ⟨3, 9, 4⟩, ⟨3, 4, 2⟩, ⟨3, 2, 6⟩, ⟨3, 6, 8⟩, ⟨3, 8, 9⟩,
       ⟨4, 9, 5⟩, ⟨2, 4, 11⟩, ⟨6, 2, 10⟩, ⟨8, 6, 7⟩, ⟨9, 8, 1⟩] := by
  simp [FIcoSphere.MakeIcosahedron, FIcoSphere.AddVertex, FIcoSphere.AddTriangle, TArray.Empty]

/-- The vertex array after `MakeIcosahedron`, whatever the sphere held before. -/
theorem MakeIcosahedron_Vertices (Phi : Scalar) (S : FIcoSphere) :
    (FIcoSphere.MakeIcosahedron Phi S).Vertices =
      ([⟨-1, Phi, 0⟩, ⟨1, Phi, 0⟩, ⟨-1, -Phi, 0⟩, ⟨1, -Phi, 0⟩,
        ⟨0, -1, Phi⟩, ⟨0, 1, Phi⟩, ⟨0, -1, -Phi⟩, ⟨0, 1, -Phi⟩,
        ⟨Phi, 0, -1⟩, ⟨Phi, 0, 1⟩, ⟨-Phi, 0, -1⟩, ⟨-Phi, 0, 1⟩] : List FVector).map
        (fun Vert => Vert.scale 100) := by
  simp [FIcoSphere.MakeIcosahedron, FIcoSphere.AddVertex, FIcoSphere.AddTriangle, TArray.Empty]

/-! ## Theorems -/

/-- C1: for every MaxWalkAngle and every list of available modes, the ladder's
Traversable is true exactly when the list contains ClimbingUp or ClimbingDown;
the angle is irrelevant, the empty list gives false, and so does every list
made only of Stationary, Walking and InPlaceTurn. -/
theorem C1_Traversable_iff_climbing (L : UNavLadderComponent) (MaxWalkAngle : Scalar)
    (Modes : List EGridMovementMode) :
    (L.Traversable MaxWalkAngle Modes = true ↔
        EGridMovementMode.ClimbingUp ∈ Modes ∨ EGridMovementMode.ClimbingDown ∈ Modes)
    ∧ (∀ OtherAngle : Scalar, L.Traversable OtherAngle Modes = L.Traversable MaxWalkAngle Modes)
    ∧ L.Traversable MaxWalkAngle [] = false
    ∧ ((∀ m ∈ Modes, m = EGridMovementMode.Stationary ∨ m = EGridMovementMode.Walking
          ∨ m = EGridMovementMode.InPlaceTurn) → L.Traversable MaxWalkAngle Modes = false) := by
  refine ⟨?_, fun _ => rfl, rfl, ?_⟩
  · simp [UNavLadderComponent.Traversable, or_comm]
  · intro h
    have hUp : EGridMovementMode.ClimbingUp ∉ Modes := fun hm => by
      rcases h _ hm with h1 | h1 | h1 <;> cases h1
    have hDown : EGridMovementMode.ClimbingDown ∉ Modes := fun hm => by
      rcases h _ hm with h1 | h1 | h1 <;> cases h1
    simp [UNavLadderComponent.Traversable, hUp, hDown]

/-- C2: for every MaxWalkAngle and every list of available modes the ladder's
LegalPositionAtEndOfTurn is false, also for the lists (those with ClimbingUp or
ClimbingDown) for which Traversable is true with the same arguments. -/
theorem C2_LegalPositionAtEndOfTurn_false (L : UNavLadderComponent) (MaxWalkAngle : Scalar)
    (Modes : List EGridMovementMode) :
    L.LegalPositionAtEndOfTurn MaxWalkAngle Modes = false
    ∧ L.LegalPositionAtEndOfTurn MaxWalkAngle
        (EGridMovementMode.ClimbingUp :: EGridMovementMode.ClimbingDown :: Modes) = false
    ∧ L.Traversable MaxWalkAngle
        (EGridMovementMode.ClimbingUp :: EGridMovementMode.ClimbingDown :: Modes) = true := by
  refine ⟨rfl, rfl, ?_⟩
  simp [UNavLadderComponent.Traversable]

/-- C3: whatever OutNeighbours held, GetUnobstructedNeighbours leaves in it the
neighbours of GetNeighbours(), in order, whose Obstructed(TracePoint, Capsule)
is false: the result is that filter of the neighbour list, hence a sub-sequence
of it, it has exactly the unobstructed neighbours as members, and it is the
same for any two prior contents. -/
theorem C3_GetUnobstructedNeighbours_filter (Sqrt : Scalar → Scalar) (L : UNavLadderComponent)
    (Cap : UCapsuleComponent) (Out : List UNavTileComponent) :
    GetUnobstructedNeighbours Sqrt L Cap Out =
        L.GetNeighbours.filter (fun N => !N.Obstructed (NeighbourTracePoint Sqrt L N) Cap)
    ∧ List.Sublist (GetUnobstructedNeighbours Sqrt L Cap Out) L.GetNeighbours
    ∧ (∀ N, N ∈ GetUnobstructedNeighbours Sqrt L Cap Out ↔
        N ∈ L.GetNeighbours ∧ N.Obstructed (NeighbourTracePoint Sqrt L N) Cap = false)
    ∧ (∀ Out2, GetUnobstructedNeighbours Sqrt L Cap Out2 = GetUnobstructedNeighbours Sqrt L Cap Out) := by
  refine ⟨GetUnobstructedNeighbours_eq_filter Sqrt L Cap Out, ?_, ?_, ?_⟩
  · rw [GetUnobstructedNeighbours_eq_filter]
    exact List.filter_sublist _
  · intro N
    rw [GetUnobstructedNeighbours_eq_filter]
    simp [List.mem_filter]
  · intro Out2
    rw [GetUnobstructedNeighbours_eq_filter, GetUnobstructedNeighbours_eq_filter]

set_option maxRecDepth 100000 in
/-- C10: whatever the sphere held before, MakeIcosahedron leaves 12 vertices and
20 triangles forming a closed, consistently oriented triangulation: every
triangle has three distinct vertex ids in 0..11, every vertex id is used by
exactly 5 triangles, the 60 directed edges are pairwise different, each lies
in exactly one triangle and its reverse in exactly one other triangle, there
are 30 undirected edges and V - E + F = 2; a second call changes nothing. -/
theorem C10_MakeIcosahedron_closed_oriented (Phi : Scalar) (S : FIcoSphere) :
    (FIcoSphere.MakeIcosahedron Phi S).Vertices.length = 12
    ∧ (FIcoSphere.MakeIcosahedron Phi S).Triangles.length = 20
    ∧ (∀ T ∈ (FIcoSphere.MakeIcosahedron Phi S).Triangles,
        T.V0 ≠ T.V1 ∧ T.V1 ≠ T.V2 ∧ T.V2 ≠ T.V0 ∧ ∀ v ∈ T.VertexIds, 0 ≤ v ∧ v ≤ 11)
    ∧ (∀ v : Int, 0 ≤ v → v ≤ 11 → (FIcoSphere.MakeIcosahedron Phi S).VertexUse v = 5)
    ∧ (FIcoSphere.MakeIcosahedron Phi S).DirectedEdges.length = 60
    ∧ (FIcoSphere.MakeIcosahedron Phi S).DirectedEdges.Nodup
    ∧ (∀ T ∈ (FIcoSphere.MakeIcosahedron Phi S).Triangles, ∀ e ∈ T.Edges,
        (FIcoSphere.MakeIcosahedron Phi S).EdgeUse e = 1
        ∧ (FIcoSphere.MakeIcosahedron Phi S).EdgeUse e.swap = 1
        ∧ e.swap ∉ T.Edges)
    ∧ (FIcoSphere.MakeIcosahedron Phi S).UndirectedEdges.length = 30
    ∧ ((FIcoSphere.MakeIcosahedron Phi S).Vertices.length : Int)
        - (FIcoSphere.MakeIcosahedron Phi S).UndirectedEdges.length
        + (FIcoSphere.MakeIcosahedron Phi S).Triangles.length = 2
    ∧ FIcoSphere.MakeIcosahedron Phi (FIcoSphere.MakeIcosahedron Phi S)
        = FIcoSphere.MakeIcosahedron Phi S := by
  have hV : (FIcoSphere.MakeIcosahedron Phi S).Vertices.length = 12 := by
    simp [MakeIcosahedron_Vertices]
  have hU : (FIcoSphere.MakeIcosahedron Phi S).UndirectedEdges.length = 30 := by
    simp only [FIcoSphere.UndirectedEdges, FIcoSphere.DirectedEdges, MakeIcosahedron_Triangles]
    decide
  have hI : FIcoSphere.MakeIcosahedron Phi (FIcoSphere.MakeIcosahedron Phi S)
      = FIcoSphere.MakeIcosahedron Phi S := by
    have hext : ∀ A B : FIcoSphere, A.Vertices = B.Vertices → A.Triangles = B.Triangles → A = B := by
      intro A B h1 h2
      cases A; cases B; simp_all
    apply hext
    · rw [MakeIcosahedron_Vertices, MakeIcosahedron_Vertices]
    · rw [MakeIcosahedron_Triangles, MakeIcosahedron_Triangles]
  refine ⟨hV, ?_, ?_, ?_, ?_, ?_, ?_, hU, ?_, hI⟩
  · rw [MakeIcosahedron_Triangles]; rfl
  · rw [MakeIcosahedron_Triangles]; decide
  · intro v h0 h11
    simp only [FIcoSphere.VertexUse, MakeIcosahedron_Triangles]
    interval_cases v <;> decide
  · simp only [FIcoSphere.DirectedEdges, MakeIcosahedron_Triangles]; rfl
  · simp only [FIcoSphere.DirectedEdges, MakeIcosahedron_Triangles]; decide
  · simp only [FIcoSphere.EdgeUse, MakeIcosahedron_Triangles]; decide
  · rw [hV, hU, MakeIcosahedron_Triangles]; rfl

set_option maxRecDepth 100000 in
/-- C4 (as stated, refuted): the ladder has its top path point at (100, 0, 75)
and its bottom one at (100, 0, -50). For a neighbour whose pawn location is
(100, 0, 1e10) the top point is strictly closer, yet both rounded distances
are 1e10 and the bottom point is handed to Obstructed. The same happens at
the pawn location (300, 0, 12.5 + 2^-20), where both rounded distances are
209.53817749. For a pawn location with a NaN coordinate the bottom point is
chosen although its distance is not less than or equal to the other one. -/
theorem C4_counterexample_rounded_distances_tie :
    (UpdateBodySetup id (sampleLadder 200)).TopLocation = ⟨100, 0, 75⟩
    ∧ (UpdateBodySetup id (sampleLadder 200)).BottomLocation = ⟨100, 0, -50⟩
    ∧ FVector.ExactDistSq ⟨100, 0, 75⟩ ⟨100, 0, 10000000000⟩
        < FVector.ExactDistSq ⟨100, 0, -50⟩ ⟨100, 0, 10000000000⟩
    ∧ NeighbourTracePoint FMath.Sqrt (UpdateBodySetup id (sampleLadder 200))
        (sampleTile ⟨100, 0, 10000000000⟩) = ⟨100, 0, -50⟩
    ∧ FVector.ExactDistSq ⟨100, 0, 75⟩ ⟨300, 0, ⟨false, 130, 4718593⟩⟩
        < FVector.ExactDistSq ⟨100, 0, -50⟩ ⟨300, 0, ⟨false, 130, 4718593⟩⟩
    ∧ NeighbourTracePoint FMath.Sqrt (UpdateBodySetup id (sampleLadder 200))
        (sampleTile ⟨300, 0, ⟨false, 130, 4718593⟩⟩) = ⟨100, 0, -50⟩
    ∧ NeighbourTracePoint FMath.Sqrt (UpdateBodySetup id (sampleLadder 200))
        (sampleTile ⟨Float32.nan, 0, 0⟩) = ⟨100, 0, -50⟩
    ∧ ¬ ((((⟨100, 0, -50⟩ : FVector) - ⟨Float32.nan, 0, 0⟩).Size FMath.Sqrt)
          ≤ (((⟨100, 0, 75⟩ : FVector) - ⟨Float32.nan, 0, 0⟩).Size FMath.Sqrt)) := by
  refine ⟨by decide, by decide, by decide, by decide, by decide, by decide, by decide,
    by decide⟩

/-- C4 (amended): in GetUnobstructedNeighbours the trace point handed to a
neighbour's Obstructed is chosen by the computed binary32 distances
Size() = sqrt(X*X + Y*Y + Z*Z) of the rounded differences: it is the top path
point exactly when the computed top distance is strictly less than the
computed bottom distance and the bottom path point otherwise (equal computed
distances and NaN included). When neither computed distance is NaN, the
computed distance of the chosen point is at most that of either point. The
call keeps exactly the neighbours whose Obstructed is false at that point. -/
theorem C4_trace_point_by_computed_distance (L : UNavLadderComponent) (N : UNavTileComponent) :
    ((L.TopLocation - N.GetPawnLocation).Size FMath.Sqrt
          < (L.BottomLocation - N.GetPawnLocation).Size FMath.Sqrt
        → NeighbourTracePoint FMath.Sqrt L N = L.TopLocation)
    ∧ (¬ (L.TopLocation - N.GetPawnLocation).Size FMath.Sqrt
          < (L.BottomLocation - N.GetPawnLocation).Size FMath.Sqrt
        → NeighbourTracePoint FMath.Sqrt L N = L.BottomLocation)
    ∧ (((L.TopLocation - N.GetPawnLocation).Size FMath.Sqrt).isNaN = true
          ∨ ((L.BottomLocation - N.GetPawnLocation).Size FMath.Sqrt).isNaN = true
        → NeighbourTracePoint FMath.Sqrt L N = L.BottomLocation)
    ∧ (((L.TopLocation - N.GetPawnLocation).Size FMath.Sqrt).isNaN = false
        → ((L.BottomLocation - N.GetPawnLocation).Size FMath.Sqrt).isNaN = false
        → (NeighbourTracePoint FMath.Sqrt L N - N.GetPawnLocation).Size FMath.Sqrt
            ≤ (L.TopLocation - N.GetPawnLocation).Size FMath.Sqrt
          ∧ (NeighbourTracePoint FMath.Sqrt L N - N.GetPawnLocation).Size FMath.Sqrt
            ≤ (L.BottomLocation - N.GetPawnLocation).Size FMath.Sqrt)
    ∧ (L.TopLocation - N.GetPawnLocation).Size FMath.Sqrt
        = Float32.sqrt (Float32.add
            (Float32.add
              (Float32.mul (Float32.sub L.TopLocation.X N.GetPawnLocation.X)
                (Float32.sub L.TopLocation.X N.GetPawnLocation.X))
              (Float32.mul (Float32.sub L.TopLocation.Y N.GetPawnLocation.Y)
                (Float32.sub L.TopLocation.Y N.GetPawnLocation.Y)))
            (Float32.mul (Float32.sub L.TopLocation.Z N.GetPawnLocation.Z)
              (Float32.sub L.TopLocation.Z N.GetPawnLocation.Z)))
    ∧ (∀ (Cap : UCapsuleComponent) (Out : List UNavTileComponent),
        GetUnobstructedNeighbours FMath.Sqrt L Cap Out =
          L.GetNeighbours.filter (fun M => !M.Obstructed
            (if (L.TopLocation - M.GetPawnLocation).Size FMath.Sqrt
                < (L.BottomLocation - M.GetPawnLocation).Size FMath.Sqrt
             then L.TopLocation else L.BottomLocation) Cap)) := by
  refine ⟨?_, ?_, ?_, ?_, rfl, ?_⟩
  · intro h
    simp only [NeighbourTracePoint, h, if_true]
  · intro h
    simp only [NeighbourTracePoint, h, if_false]
  · intro h
    simp only [NeighbourTracePoint, Float32.not_lt_of_nan h, if_false]
  · intro hT hB
    unfold NeighbourTracePoint
    by_cases h : (L.TopLocation - N.GetPawnLocation).Size FMath.Sqrt
        < (L.BottomLocation - N.GetPawnLocation).Size FMath.Sqrt
    · simp only [h, if_true]
      exact ⟨Float32.le_refl_of_not_nan hT, Float32.lt_imp_le h⟩
    · simp only [h, if_false]
      exact ⟨Float32.not_lt_imp_ge hT hB h, Float32.le_refl_of_not_nan hB⟩
  · intro Cap Out
    rw [GetUnobstructedNeighbours_eq_filter]
    rfl

set_option maxRecDepth 100000 in
/-- C4 (amended) at ordinary inputs: for a pawn location (300, 0, 200) the top
path point (100, 0, 75) is handed to Obstructed, for (300, 0, -200) the
bottom one (100, 0, -50). -/
theorem C4_trace_point_by_computed_distance_witness :
    NeighbourTracePoint FMath.Sqrt (UpdateBodySetup id (sampleLadder 200))
        (sampleTile ⟨300, 0, 200⟩) = (UpdateBodySetup id (sampleLadder 200)).TopLocation
    ∧ (UpdateBodySetup id (sampleLadder 200)).TopLocation = ⟨100, 0, 75⟩
    ∧ NeighbourTracePoint FMath.Sqrt (UpdateBodySetup id (sampleLadder 200))
        (sampleTile ⟨300, 0, -200⟩) = (UpdateBodySetup id (sampleLadder 200)).BottomLocation
    ∧ (UpdateBodySetup id (sampleLadder 200)).BottomLocation = ⟨100, 0, -50⟩ :=
  ⟨(C4_trace_point_by_computed_distance (UpdateBodySetup id (sampleLadder 200))
      (sampleTile ⟨300, 0, 200⟩)).1 (by decide),
   by decide,
   (C4_trace_point_by_computed_distance (UpdateBodySetup id (sampleLadder 200))
      (sampleTile ⟨300, 0, -200⟩)).2.1 (by decide),
   by decide⟩

set_option maxRecDepth 100000 in
/-- C5 (as stated, refuted): on a valid grid with TileSize = -200 the X offset
that UpdateBodySetup gives to BottomPathPoint and TopPathPoint is -100, which
is not positive; no clamp has been applied. -/
theorem C5_counterexample_negative_TileSize :
    (sampleLadder (-200)).Grid = some ⟨-200⟩
    ∧ (UpdateBodySetup id (sampleLadder (-200))).BottomPathPoint.RelativeLocation = ⟨-100, 0, -50⟩
    ∧ (UpdateBodySetup id (sampleLadder (-200))).TopPathPoint.RelativeLocation = ⟨-100, 0, 75⟩
    ∧ ¬ ((0 : Scalar) < (UpdateBodySetup id (sampleLadder (-200))).BottomPathPoint.RelativeLocation.X)
    ∧ ¬ ((0 : Scalar) < (UpdateBodySetup id (sampleLadder (-200))).TopPathPoint.RelativeLocation.X)
    ∧ (UpdateBodySetup id (sampleLadder (-200))).BottomPathPoint.RelativeLocation.X ≤ (0 : Scalar) := by
  refine ⟨rfl, by decide, by decide, by decide, by decide, by decide⟩

/-- C5 (amended): UpdateBodySetup does not clamp the tile size. On a valid grid
the X offset it gives to BottomPathPoint and TopPathPoint is the binary32
quotient TileSize / 2 of the stored TileSize, which is zero or negative
whenever TileSize <= 0, and the neighbourhood extent is computed from the same
stored TileSize: FMath::Max(BoxExtent.X, TileSize) + 15 in X and
FMath::Max(BoxExtent.Y, TileSize / 2) + 15 in Y, each sum and quotient rounded
to binary32. -/
theorem C5_UpdateBodySetup_uses_TileSize_unclamped
    (Super : UNavLadderComponent → UNavLadderComponent) (L0 : UNavLadderComponent)
    (Grid : ANavGrid) (hGrid : (Super L0).Grid = some Grid) :
    (UpdateBodySetup Super L0).BottomPathPoint.RelativeLocation.X = Grid.TileSize / 2
    ∧ (UpdateBodySetup Super L0).TopPathPoint.RelativeLocation.X = Grid.TileSize / 2
    ∧ (Grid.TileSize ≤ 0 → (UpdateBodySetup Super L0).BottomPathPoint.RelativeLocation.X ≤ 0
        ∧ (UpdateBodySetup Super L0).TopPathPoint.RelativeLocation.X ≤ 0)
    ∧ (UpdateBodySetup Super L0).NeighbourhoodShape.BoxHalfExtent.X
        = FMath.Max (Super L0).BoxExtent.X Grid.TileSize + 15
    ∧ (UpdateBodySetup Super L0).NeighbourhoodShape.BoxHalfExtent.Y
        = FMath.Max (Super L0).BoxExtent.Y (Grid.TileSize / 2) + 15
    ∧ (∀ A B : Scalar, FMath.Max A B = if B ≤ A then A else B)
    ∧ (∀ A B : Scalar, A / B = Float32.div A B ∧ A + B = Float32.add A B) := by
  have hB : (UpdateBodySetup Super L0).BottomPathPoint.RelativeLocation.X = Grid.TileSize / 2 := by
    simp [UpdateBodySetup, hGrid]
  have hT : (UpdateBodySetup Super L0).TopPathPoint.RelativeLocation.X = Grid.TileSize / 2 := by
    simp [UpdateBodySetup, hGrid]
  refine ⟨hB, hT, ?_, ?_, ?_, fun _ _ => rfl, fun _ _ => ⟨rfl, rfl⟩⟩
  · intro h
    rw [hB, hT]
    exact ⟨Float32.div_two_nonpos h, Float32.div_two_nonpos h⟩
  · simp only [UpdateBodySetup, hGrid, FCollisionShape.MakeBox]
    rfl
  · simp only [UpdateBodySetup, hGrid, FCollisionShape.MakeBox]
    rfl

set_option maxRecDepth 100000 in
/-- C5 (amended), at concrete ladders: a valid grid with TileSize = 0 gives the
X offset 0, and the default TileSize = 200 gives the X offset 100 and the
neighbourhood extent (215, 115, 115). -/
theorem C5_UpdateBodySetup_uses_TileSize_unclamped_witness :
    (id (sampleLadder 0)).Grid = some ⟨0⟩
    ∧ (UpdateBodySetup id (sampleLadder 0)).BottomPathPoint.RelativeLocation.X = (0 : Scalar) / 2
    ∧ (UpdateBodySetup id (sampleLadder 0)).BottomPathPoint.RelativeLocation.X ≤ 0
    ∧ (0 : Scalar) / 2 = 0
    ∧ (UpdateBodySetup id (sampleLadder 200)).TopPathPoint.RelativeLocation.X = (200 : Scalar) / 2
    ∧ (200 : Scalar) / 2 = 100
    ∧ (UpdateBodySetup id (sampleLadder 200)).NeighbourhoodShape.BoxHalfExtent = ⟨215, 115, 115⟩ :=
  ⟨rfl,
   (C5_UpdateBodySetup_uses_TileSize_unclamped id (sampleLadder 0) ⟨0⟩ rfl).1,
   ((C5_UpdateBodySetup_uses_TileSize_unclamped id (sampleLadder 0) ⟨0⟩ rfl).2.2.1
      (by decide)).1,
   by decide,
   (C5_UpdateBodySetup_uses_TileSize_unclamped id (sampleLadder 200) ⟨200⟩ rfl).2.1,
   by decide,
   by decide⟩

set_option maxRecDepth 100000 in
/-- C7 (as stated, refuted): the ladder has its top path point at (100, 0, 75)
and its bottom one at (100, 0, -50). From (100, 0, 1e10) the top point is
strictly closer, yet both rounded distances are 1e10 and Obstructed traces to
the bottom point: with a base trace that is obstructed only towards the top
point, Obstructed returns false while the base trace to the top point returns
true. From (300, 0, 12.5 + 2^-20) the top point is strictly closer as well and
the trace again goes to the bottom point. -/
theorem C7_counterexample_trace_to_farther_point :
    FVector.ExactDistSq (UpdateBodySetup id (sampleLadder 200)).TopLocation ⟨100, 0, 10000000000⟩
        < FVector.ExactDistSq (UpdateBodySetup id (sampleLadder 200)).BottomLocation
            ⟨100, 0, 10000000000⟩
    ∧ ObstructedTracePoint FMath.Sqrt (UpdateBodySetup id (sampleLadder 200))
        ⟨100, 0, 10000000000⟩ = (UpdateBodySetup id (sampleLadder 200)).BottomLocation
    ∧ (UpdateBodySetup id (sampleLadder 200)).Obstructed FMath.Sqrt
        (fun _ To _ => decide (To = ⟨100, 0, 75⟩)) ⟨100, 0, 10000000000⟩ ⟨⟨0, 0, 0⟩⟩ = false
    ∧ (fun (_ : FVector) (To : FVector) (_ : UCapsuleComponent) => decide (To = ⟨100, 0, 75⟩))
        ((⟨100, 0, 10000000000⟩ : FVector) + (⟨0, 0, 0⟩ : FVector))
        ((UpdateBodySetup id (sampleLadder 200)).TopLocation + (⟨0, 0, 0⟩ : FVector))
        ⟨⟨0, 0, 0⟩⟩ = true
    ∧ FVector.ExactDistSq (UpdateBodySetup id (sampleLadder 200)).TopLocation
        ⟨300, 0, ⟨false, 130, 4718593⟩⟩
        < FVector.ExactDistSq (UpdateBodySetup id (sampleLadder 200)).BottomLocation
            ⟨300, 0, ⟨false, 130, 4718593⟩⟩
    ∧ ObstructedTracePoint FMath.Sqrt (UpdateBodySetup id (sampleLadder 200))
        ⟨300, 0, ⟨false, 130, 4718593⟩⟩ = (UpdateBodySetup id (sampleLadder 200)).BottomLocation := by
  refine ⟨by decide, by decide, by decide, by decide, by decide, by decide⟩

/-- C7 (amended): the ladder's Obstructed returns exactly what the base class's
Obstructed returns on the segment from FromPos + R to P + R, R being the
capsule's relative location (added in binary32) and P the top path point when
its computed binary32 distance Size() = sqrt(X*X + Y*Y + Z*Z) to FromPos is
strictly less than that of the bottom path point, and the bottom path point
otherwise (equal computed distances and NaN included); an obstructed base
trace is never reported as unobstructed. -/
theorem C7_Obstructed_is_base_trace
    (BaseObstructed : FVector → FVector → UCapsuleComponent → Bool)
    (L : UNavLadderComponent) (FromPos : FVector) (Cap : UCapsuleComponent) :
    L.Obstructed FMath.Sqrt BaseObstructed FromPos Cap =
        BaseObstructed (FromPos + Cap.RelativeLocation)
          ((if (L.TopLocation - FromPos).Size FMath.Sqrt < (L.BottomLocation - FromPos).Size FMath.Sqrt
            then L.TopLocation else L.BottomLocation) + Cap.RelativeLocation) Cap
    ∧ ((L.TopLocation - FromPos).Size FMath.Sqrt < (L.BottomLocation - FromPos).Size FMath.Sqrt →
        L.Obstructed FMath.Sqrt BaseObstructed FromPos Cap =
          BaseObstructed (FromPos + Cap.RelativeLocation)
            (L.TopLocation + Cap.RelativeLocation) Cap)
    ∧ (¬ (L.TopLocation - FromPos).Size FMath.Sqrt < (L.BottomLocation - FromPos).Size FMath.Sqrt →
        L.Obstructed FMath.Sqrt BaseObstructed FromPos Cap =
          BaseObstructed (FromPos + Cap.RelativeLocation)
            (L.BottomLocation + Cap.RelativeLocation) Cap)
    ∧ (((L.TopLocation - FromPos).Size FMath.Sqrt).isNaN = true
          ∨ ((L.BottomLocation - FromPos).Size FMath.Sqrt).isNaN = true →
        L.Obstructed FMath.Sqrt BaseObstructed FromPos Cap =
          BaseObstructed (FromPos + Cap.RelativeLocation)
            (L.BottomLocation + Cap.RelativeLocation) Cap)
    ∧ (BaseObstructed (FromPos + Cap.RelativeLocation)
          (ObstructedTracePoint FMath.Sqrt L FromPos + Cap.RelativeLocation) Cap = true →
        L.Obstructed FMath.Sqrt BaseObstructed FromPos Cap = true)
    ∧ (∀ v : FVector, v.Size FMath.Sqrt
        = Float32.sqrt (Float32.add (Float32.add (Float32.mul v.X v.X) (Float32.mul v.Y v.Y))
            (Float32.mul v.Z v.Z)))
    ∧ (∀ a b : FVector, a - b = ⟨Float32.sub a.X b.X, Float32.sub a.Y b.Y, Float32.sub a.Z b.Z⟩)
    ∧ (∀ a b : FVector, a + b = ⟨Float32.add a.X b.X, Float32.add a.Y b.Y, Float32.add a.Z b.Z⟩) := by
  refine ⟨rfl, ?_, ?_, ?_, ?_, fun _ => rfl, fun _ _ => rfl, fun _ _ => rfl⟩
  · intro h
    simp only [UNavLadderComponent.Obstructed, ObstructedTracePoint, h, if_true]
  · intro h
    simp only [UNavLadderComponent.Obstructed, ObstructedTracePoint, h, if_false]
  · intro h
    simp only [UNavLadderComponent.Obstructed, ObstructedTracePoint,
      Float32.not_lt_of_nan h, if_false]
  · intro h
    exact h

set_option maxRecDepth 100000 in
/-- C7 (amended) at ordinary inputs: from (300, 0, 200) the trace goes to the
top path point (100, 0, 75), from (300, 0, -200) to the bottom one
(100, 0, -50); the base trace used here is obstructed only towards the top. -/
theorem C7_Obstructed_is_base_trace_witness :
    (UpdateBodySetup id (sampleLadder 200)).Obstructed FMath.Sqrt
        (fun _ To _ => decide (To = ⟨100, 0, 75⟩)) ⟨300, 0, 200⟩ ⟨⟨0, 0, 0⟩⟩ = true
    ∧ (UpdateBodySetup id (sampleLadder 200)).Obstructed FMath.Sqrt
        (fun _ To _ => decide (To = ⟨100, 0, 75⟩)) ⟨300, 0, -200⟩ ⟨⟨0, 0, 0⟩⟩ = false :=
  ⟨((C7_Obstructed_is_base_trace (fun _ To _ => decide (To = ⟨100, 0, 75⟩))
      (UpdateBodySetup id (sampleLadder 200)) ⟨300, 0, 200⟩ ⟨⟨0, 0, 0⟩⟩).2.1 (by decide)).trans
      (by decide),
   ((C7_Obstructed_is_base_trace (fun _ To _ => decide (To = ⟨100, 0, 75⟩))
      (UpdateBodySetup id (sampleLadder 200)) ⟨300, 0, -200⟩ ⟨⟨0, 0, 0⟩⟩).2.2.1 (by decide)).trans
      (by decide)⟩

set_option maxRecDepth 100000 in
/-- C8 (as stated, refuted): the ladder has its top path point at (100, 0, 75)
and its bottom one at (100, 0, -50). From (100, 0, -1e10) the bottom point is
strictly nearer, so the top one is strictly farther, yet both rounded
distances are 1e10 and the first point appended is the top point. The same
happens from (300, 0, 12.5 - 2^-20). -/
theorem C8_counterexample_enters_at_farther_end :
    FVector.ExactDistSq (UpdateBodySetup id (sampleLadder 200)).BottomLocation
        ⟨100, 0, -10000000000⟩
      < FVector.ExactDistSq (UpdateBodySetup id (sampleLadder 200)).TopLocation
          ⟨100, 0, -10000000000⟩
    ∧ ((UpdateBodySetup id (sampleLadder 200)).AddSplinePoints FMath.Sqrt
        ⟨100, 0, -10000000000⟩ ⟨[]⟩ false).Points = [⟨100, 0, 75⟩, ⟨100, 0, -50⟩]
    ∧ (UpdateBodySetup id (sampleLadder 200)).TopLocation = ⟨100, 0, 75⟩
    ∧ (UpdateBodySetup id (sampleLadder 200)).BottomLocation = ⟨100, 0, -50⟩
    ∧ FVector.ExactDistSq (UpdateBodySetup id (sampleLadder 200)).BottomLocation
        ⟨300, 0, ⟨false, 130, 4718591⟩⟩
      < FVector.ExactDistSq (UpdateBodySetup id (sampleLadder 200)).TopLocation
          ⟨300, 0, ⟨false, 130, 4718591⟩⟩
    ∧ ((UpdateBodySetup id (sampleLadder 200)).AddSplinePoints FMath.Sqrt
        ⟨300, 0, ⟨false, 130, 4718591⟩⟩ ⟨[]⟩ false).Points = [⟨100, 0, 75⟩, ⟨100, 0, -50⟩] := by
  refine ⟨by decide, by decide, by decide, by decide, by decide, by decide⟩

/-- C8 (amended): AddSplinePoints keeps the spline's points and appends exactly
two. The first is the bottom path point when the computed binary32 distance
Size() = sqrt(X*X + Y*Y + Z*Z) from the top path point to FromPos is strictly
greater than that from the bottom one, and the top path point otherwise (equal
computed distances and NaN included); when neither computed distance is NaN
its computed distance is at most that of either end. The second is the
opposite end when LastTile is false and
PawnLocationOffset + GetComponentLocation() when LastTile is true. -/
theorem C8_AddSplinePoints_appends_two (L : UNavLadderComponent)
    (FromPos : FVector) (OutSpline : USplineComponent) (LastTile : Bool) :
    (L.AddSplinePoints FMath.Sqrt FromPos OutSpline LastTile).Points =
        OutSpline.Points ++
          [ (if (L.TopLocation - FromPos).Size FMath.Sqrt > (L.BottomLocation - FromPos).Size FMath.Sqrt
             then L.BottomLocation else L.TopLocation),
            (if LastTile = true then L.PawnLocationOffset + L.GetComponentLocation
             else if (L.TopLocation - FromPos).Size FMath.Sqrt
                  > (L.BottomLocation - FromPos).Size FMath.Sqrt
             then L.TopLocation else L.BottomLocation) ]
    ∧ (L.AddSplinePoints FMath.Sqrt FromPos OutSpline LastTile).Points.length
        = OutSpline.Points.length + 2
    ∧ (L.AddSplinePoints FMath.Sqrt FromPos OutSpline LastTile).Points.take OutSpline.Points.length
        = OutSpline.Points
    ∧ (((L.TopLocation - FromPos).Size FMath.Sqrt).isNaN = true
          ∨ ((L.BottomLocation - FromPos).Size FMath.Sqrt).isNaN = true →
        (L.AddSplinePoints FMath.Sqrt FromPos OutSpline LastTile).Points[OutSpline.Points.length]?
          = some L.TopLocation)
    ∧ (((L.TopLocation - FromPos).Size FMath.Sqrt).isNaN = false →
        ((L.BottomLocation - FromPos).Size FMath.Sqrt).isNaN = false →
        ((if (L.TopLocation - FromPos).Size FMath.Sqrt > (L.BottomLocation - FromPos).Size FMath.Sqrt
          then L.BottomLocation else L.TopLocation) - FromPos).Size FMath.Sqrt
          ≤ (L.TopLocation - FromPos).Size FMath.Sqrt
        ∧ ((if (L.TopLocation - FromPos).Size FMath.Sqrt
              > (L.BottomLocation - FromPos).Size FMath.Sqrt
          then L.BottomLocation else L.TopLocation) - FromPos).Size FMath.Sqrt
          ≤ (L.BottomLocation - FromPos).Size FMath.Sqrt)
    ∧ (∀ v : FVector, v.Size FMath.Sqrt
        = Float32.sqrt (Float32.add (Float32.add (Float32.mul v.X v.X) (Float32.mul v.Y v.Y))
            (Float32.mul v.Z v.Z)))
    ∧ (∀ a b : FVector, a - b = ⟨Float32.sub a.X b.X, Float32.sub a.Y b.Y, Float32.sub a.Z b.Z⟩) := by
  have hPoints := AddSplinePoints_Points FMath.Sqrt L FromPos OutSpline LastTile
  refine ⟨hPoints, ?_, ?_, ?_, ?_, fun _ => rfl, fun _ _ => rfl⟩
  · rw [hPoints]; simp
  · rw [hPoints]; simp
  · intro h
    have hn : ¬ (L.TopLocation - FromPos).Size FMath.Sqrt
        > (L.BottomLocation - FromPos).Size FMath.Sqrt :=
      Float32.not_lt_of_nan (Or.symm h)
    rw [AddSplinePoints_first]
    simp only [hn, if_false]
  · intro hT hB
    by_cases hd : (L.TopLocation - FromPos).Size FMath.Sqrt
        > (L.BottomLocation - FromPos).Size FMath.Sqrt
    · simp only [hd, if_true]
      exact ⟨Float32.lt_imp_le hd, Float32.le_refl_of_not_nan hB⟩
    · simp only [hd, if_false]
      exact ⟨Float32.le_refl_of_not_nan hT, Float32.not_lt_imp_ge hB hT hd⟩

set_option maxRecDepth 100000 in
/-- C8 (amended) at ordinary inputs: from (300, 0, -200) the path enters at the
bottom path point and leaves at the top one; from (300, 0, 200), on the last
tile, it enters at the top path point and ends at
PawnLocationOffset + GetComponentLocation() = (90, 0, 0); the point the spline
already held stays first. -/
theorem C8_AddSplinePoints_appends_two_witness :
    ((UpdateBodySetup id (sampleLadder 200)).AddSplinePoints FMath.Sqrt
        ⟨300, 0, -200⟩ ⟨[⟨1, 2, 3⟩]⟩ false).Points
      = [⟨1, 2, 3⟩, ⟨100, 0, -50⟩, ⟨100, 0, 75⟩]
    ∧ ((UpdateBodySetup id (sampleLadder 200)).AddSplinePoints FMath.Sqrt
        ⟨300, 0, 200⟩ ⟨[⟨1, 2, 3⟩]⟩ true).Points
      = [⟨1, 2, 3⟩, ⟨100, 0, 75⟩, ⟨90, 0, 0⟩] :=
  ⟨((C8_AddSplinePoints_appends_two (UpdateBodySetup id (sampleLadder 200))
      ⟨300, 0, -200⟩ ⟨[⟨1, 2, 3⟩]⟩ false).1).trans (by decide),
   ((C8_AddSplinePoints_appends_two (UpdateBodySetup id (sampleLadder 200))
      ⟨300, 0, 200⟩ ⟨[⟨1, 2, 3⟩]⟩ true).1).trans (by decide)⟩

set_option maxRecDepth 100000 in
/-- C9 (as stated, refuted): with BoxExtent = (50, 16777218, 16777216) on a
valid grid of TileSize 2^24 = 16777216 the neighbourhood extent is
(16777232, 16777232, 16777232). Its X differs from the exact
max(BoxExtent.X, TileSize) + 15 = 16777231, its Y is below the exact
BoxExtent.Y + 15 = 16777233, and its Z differs from the exact
BoxExtent.Z + 15 = 16777231. -/
theorem C9_counterexample_rounded_sums :
    (UpdateBodySetup id (sampleLadderBox ⟨50, 16777218, 16777216⟩
        (some ⟨16777216⟩))).NeighbourhoodShape.BoxHalfExtent
      = ⟨16777232, 16777232, 16777232⟩
    ∧ (16777232 : Scalar).toInt ≠ (16777216 : Scalar).toInt + (15 : Scalar).toInt
    ∧ (16777232 : Scalar).toInt < (16777218 : Scalar).toInt + (15 : Scalar).toInt
    ∧ (50 : Scalar).toInt < (16777216 : Scalar).toInt
    ∧ (UpdateBodySetup id (sampleLadderBox ⟨50, 16777218, 16777216⟩
        (some ⟨16777216⟩))).BoxExtent = ⟨50, 16777218, 16777216⟩ := by
  refine ⟨by decide, by decide, by decide, by decide, by decide⟩

/-- C9 (amended): after UpdateBodySetup the neighbourhood extent is computed in
binary32, every sum and quotient rounded to nearest: Z is BoxExtent.Z + 15; on
a valid grid X is FMath::Max(BoxExtent.X, TileSize) + 15 and Y is
FMath::Max(BoxExtent.Y, TileSize / 2) + 15; without a valid grid the extent is
BoxExtent + (15, 15, 15). When BoxExtent and TileSize hold no NaN, every
component of the extent is at least the rounded sum of the same component of
BoxExtent and 15. BoxExtent and Grid are not changed after the base class has
run. -/
theorem C9_NeighbourhoodExtent_larger_than_tile
    (Super : UNavLadderComponent → UNavLadderComponent) (L0 : UNavLadderComponent) :
    (UpdateBodySetup Super L0).BoxExtent = (Super L0).BoxExtent
    ∧ (UpdateBodySetup Super L0).Grid = (Super L0).Grid
    ∧ (UpdateBodySetup Super L0).NeighbourhoodShape.BoxHalfExtent.Z
        = (UpdateBodySetup Super L0).BoxExtent.Z + 15
    ∧ (∀ Grid : ANavGrid, (UpdateBodySetup Super L0).Grid = some Grid →
        (UpdateBodySetup Super L0).NeighbourhoodShape.BoxHalfExtent.X
          = FMath.Max (UpdateBodySetup Super L0).BoxExtent.X Grid.TileSize + 15
        ∧ (UpdateBodySetup Super L0).NeighbourhoodShape.BoxHalfExtent.Y
          = FMath.Max (UpdateBodySetup Super L0).BoxExtent.Y (Grid.TileSize / 2) + 15)
    ∧ ((UpdateBodySetup Super L0).Grid = none →
        (UpdateBodySetup Super L0).NeighbourhoodShape.BoxHalfExtent
          = (UpdateBodySetup Super L0).BoxExtent + FVector.splat 15)
    ∧ ((∀ Grid : ANavGrid, (UpdateBodySetup Super L0).Grid = some Grid →
          Grid.TileSize.isNaN = false) →
        ((UpdateBodySetup Super L0).BoxExtent.X.isNaN = false →
          (UpdateBodySetup Super L0).BoxExtent.X + 15
            ≤ (UpdateBodySetup Super L0).NeighbourhoodShape.BoxHalfExtent.X)
        ∧ ((UpdateBodySetup Super L0).BoxExtent.Y.isNaN = false →
          (UpdateBodySetup Super L0).BoxExtent.Y + 15
            ≤ (UpdateBodySetup Super L0).NeighbourhoodShape.BoxHalfExtent.Y)
        ∧ ((UpdateBodySetup Super L0).BoxExtent.Z.isNaN = false →
          (UpdateBodySetup Super L0).BoxExtent.Z + 15
            ≤ (UpdateBodySetup Super L0).NeighbourhoodShape.BoxHalfExtent.Z))
    ∧ (∀ A B : Scalar, FMath.Max A B = if B ≤ A then A else B)
    ∧ (∀ a b : FVector, a + b = ⟨Float32.add a.X b.X, Float32.add a.Y b.Y, Float32.add a.Z b.Z⟩) := by
  have h15 := Float32.fifteen_facts
  have hsum : ∀ x : Scalar, x.isNaN = false → x + 15 ≤ x + 15 := fun x hx =>
    Float32.le_refl_of_not_nan (Float32.add_finite_not_nan hx h15.1 h15.2)
  cases hG : (Super L0).Grid with
  | none =>
    have hE : (UpdateBodySetup Super L0).NeighbourhoodShape.BoxHalfExtent
        = (Super L0).BoxExtent + FVector.splat 15 := by
      simp [UpdateBodySetup, hG, FCollisionShape.MakeBox]
    have hB : (UpdateBodySetup Super L0).BoxExtent = (Super L0).BoxExtent := by
      simp [UpdateBodySetup, hG]
    have hGr : (UpdateBodySetup Super L0).Grid = none := by
      simp [UpdateBodySetup, hG]
    rw [hE, hB, hGr]
    refine ⟨rfl, rfl, rfl, ?_, fun _ => rfl, ?_, fun _ _ => rfl, fun _ _ => rfl⟩
    · intro Grid h
      cases h
    · intro _
      exact ⟨fun hx => hsum _ hx, fun hx => hsum _ hx, fun hx => hsum _ hx⟩
  | some G =>
    have hB : (UpdateBodySetup Super L0).BoxExtent = (Super L0).BoxExtent := by
      simp [UpdateBodySetup, hG]
    have hGr : (UpdateBodySetup Super L0).Grid = some G := by
      simp [UpdateBodySetup, hG]
    have hX : (UpdateBodySetup Super L0).NeighbourhoodShape.BoxHalfExtent.X
        = FMath.Max (Super L0).BoxExtent.X G.TileSize + 15 := by
      simp only [UpdateBodySetup, hG, FCollisionShape.MakeBox]
      rfl
    have hY : (UpdateBodySetup Super L0).NeighbourhoodShape.BoxHalfExtent.Y
        = FMath.Max (Super L0).BoxExtent.Y (G.TileSize / 2) + 15 := by
      simp only [UpdateBodySetup, hG, FCollisionShape.MakeBox]
      rfl
    have hZ : (UpdateBodySetup Super L0).NeighbourhoodShape.BoxHalfExtent.Z
        = (Super L0).BoxExtent.Z + 15 := by
      simp only [UpdateBodySetup, hG, FCollisionShape.MakeBox]
      rfl
    rw [hB, hGr, hX, hY, hZ]
    refine ⟨rfl, rfl, rfl, ?_, ?_, ?_, fun _ _ => rfl, fun _ _ => rfl⟩
    · intro Grid h
      cases h
      exact ⟨rfl, rfl⟩
    · intro h
      cases h
    · intro hT
      have hT' : G.TileSize.isNaN = false := hT G rfl
      refine ⟨?_, ?_, fun hx => hsum _ hx⟩
      · intro hx
        exact Float32.add_right_mono (FMath_Max_ge_left hx hT') h15.1 h15.2
      · intro hy
        exact Float32.add_right_mono
          (FMath_Max_ge_left hy (Float32.div_two_not_nan hT')) h15.1 h15.2

set_option maxRecDepth 100000 in
/-- C9 (amended) at ordinary inputs: BoxExtent = (50, 50, 100) gives the
neighbourhood extent (215, 115, 115) on a grid of TileSize 200, where the tile
size wins in X and half of it in Y, and (65, 65, 115) without a valid grid. -/
theorem C9_NeighbourhoodExtent_larger_than_tile_witness :
    (UpdateBodySetup id (sampleLadder 200)).NeighbourhoodShape.BoxHalfExtent = ⟨215, 115, 115⟩
    ∧ (UpdateBodySetup id (sampleLadderBox ⟨50, 50, 100⟩ none)).NeighbourhoodShape.BoxHalfExtent
        = ⟨65, 65, 115⟩
    ∧ (UpdateBodySetup id (sampleLadder 200)).BoxExtent.X + 15
        ≤ (UpdateBodySetup id (sampleLadder 200)).NeighbourhoodShape.BoxHalfExtent.X :=
  ⟨by decide,
   ((C9_NeighbourhoodExtent_larger_than_tile id (sampleLadderBox ⟨50, 50, 100⟩ none)).2.2.2.2.1
      (by decide)).trans (by decide),
   ((C9_NeighbourhoodExtent_larger_than_tile id (sampleLadder 200)).2.2.2.2.2.1
      (fun G hG => by
        have h : G = ⟨200⟩ := (Option.some.inj hG).symm
        rw [h]
        decide)).1 (by decide)⟩

set_option maxRecDepth 100000 in
/-- C11 (as stated, refuted): the ladder has its top path point at (100, 0, 75)
and its bottom one at (100, 0, -50), two distinct points. (100, 0, 1e10) is not
equidistant from them, yet both rounded distances are 1e10: AddSplinePoints
enters at the top point while Obstructed traces to the bottom point. The same
disagreement occurs at (300, 0, 12.5 + 2^-20), which is not equidistant
either. -/
theorem C11_counterexample_not_equidistant_disagree :
    FVector.ExactDistSq (UpdateBodySetup id (sampleLadder 200)).TopLocation ⟨100, 0, 10000000000⟩
        ≠ FVector.ExactDistSq (UpdateBodySetup id (sampleLadder 200)).BottomLocation
            ⟨100, 0, 10000000000⟩
    ∧ (UpdateBodySetup id (sampleLadder 200)).TopLocation
        ≠ (UpdateBodySetup id (sampleLadder 200)).BottomLocation
    ∧ ((UpdateBodySetup id (sampleLadder 200)).AddSplinePoints FMath.Sqrt
        ⟨100, 0, 10000000000⟩ ⟨[]⟩ false).Points[0]? = some ⟨100, 0, 75⟩
    ∧ ObstructedTracePoint FMath.Sqrt (UpdateBodySetup id (sampleLadder 200))
        ⟨100, 0, 10000000000⟩ = ⟨100, 0, -50⟩
    ∧ ((UpdateBodySetup id (sampleLadder 200)).AddSplinePoints FMath.Sqrt
        ⟨100, 0, 10000000000⟩ ⟨[]⟩ false).Points[0]?
        ≠ some (ObstructedTracePoint FMath.Sqrt (UpdateBodySetup id (sampleLadder 200))
            ⟨100, 0, 10000000000⟩)
    ∧ FVector.ExactDistSq (UpdateBodySetup id (sampleLadder 200)).TopLocation
        ⟨300, 0, ⟨false, 130, 4718593⟩⟩
        ≠ FVector.ExactDistSq (UpdateBodySetup id (sampleLadder 200)).BottomLocation
            ⟨300, 0, ⟨false, 130, 4718593⟩⟩
    ∧ ((UpdateBodySetup id (sampleLadder 200)).AddSplinePoints FMath.Sqrt
        ⟨300, 0, ⟨false, 130, 4718593⟩⟩ ⟨[]⟩ false).Points[0]?
        ≠ some (ObstructedTracePoint FMath.Sqrt (UpdateBodySetup id (sampleLadder 200))
            ⟨300, 0, ⟨false, 130, 4718593⟩⟩) := by
  refine ⟨by decide, by decide, by decide, by decide, by decide, by decide, by decide⟩

/-- C11 (amended): for every FromPos, the first point AddSplinePoints appends
is the trace target chosen by Obstructed whenever the two computed binary32
distances Size() = sqrt(X*X + Y*Y + Z*Z) from FromPos to the top and bottom
path points are strictly ordered, one way or the other, and then Obstructed
traces to that entry point. When neither is strictly less than the other
(equal computed distances, which also happens where FromPos is not
equidistant, or a NaN distance) Obstructed traces to the bottom point while
AddSplinePoints enters at the top point, and these differ as soon as the two
path points are distinct. -/
theorem C11_entry_point_and_trace_target
    (BaseObstructed : FVector → FVector → UCapsuleComponent → Bool)
    (L : UNavLadderComponent) (FromPos : FVector) (OutSpline : USplineComponent)
    (LastTile : Bool) (Cap : UCapsuleComponent) :
    ((L.TopLocation - FromPos).Size FMath.Sqrt < (L.BottomLocation - FromPos).Size FMath.Sqrt
        ∨ (L.BottomLocation - FromPos).Size FMath.Sqrt < (L.TopLocation - FromPos).Size FMath.Sqrt →
        (L.AddSplinePoints FMath.Sqrt FromPos OutSpline LastTile).Points[OutSpline.Points.length]?
          = some (ObstructedTracePoint FMath.Sqrt L FromPos)
        ∧ ∀ Entry : FVector,
            (L.AddSplinePoints FMath.Sqrt FromPos OutSpline LastTile).Points[OutSpline.Points.length]?
              = some Entry →
            L.Obstructed FMath.Sqrt BaseObstructed FromPos Cap =
              BaseObstructed (FromPos + Cap.RelativeLocation)
                (Entry + Cap.RelativeLocation) Cap)
    ∧ (¬ (L.TopLocation - FromPos).Size FMath.Sqrt < (L.BottomLocation - FromPos).Size FMath.Sqrt →
        ¬ (L.BottomLocation - FromPos).Size FMath.Sqrt < (L.TopLocation - FromPos).Size FMath.Sqrt →
        ObstructedTracePoint FMath.Sqrt L FromPos = L.BottomLocation
        ∧ L.Obstructed FMath.Sqrt BaseObstructed FromPos Cap =
            BaseObstructed (FromPos + Cap.RelativeLocation)
              (L.BottomLocation + Cap.RelativeLocation) Cap
        ∧ (L.AddSplinePoints FMath.Sqrt FromPos OutSpline LastTile).Points[OutSpline.Points.length]?
            = some L.TopLocation
        ∧ (L.TopLocation ≠ L.BottomLocation →
            (L.AddSplinePoints FMath.Sqrt FromPos OutSpline LastTile).Points[OutSpline.Points.length]?
              ≠ some (ObstructedTracePoint FMath.Sqrt L FromPos)))
    ∧ ((L.TopLocation - FromPos).Size FMath.Sqrt = (L.BottomLocation - FromPos).Size FMath.Sqrt
          ∨ ((L.TopLocation - FromPos).Size FMath.Sqrt).isNaN = true
          ∨ ((L.BottomLocation - FromPos).Size FMath.Sqrt).isNaN = true →
        ¬ (L.TopLocation - FromPos).Size FMath.Sqrt < (L.BottomLocation - FromPos).Size FMath.Sqrt
        ∧ ¬ (L.BottomLocation - FromPos).Size FMath.Sqrt < (L.TopLocation - FromPos).Size FMath.Sqrt)
    ∧ (∀ v : FVector, v.Size FMath.Sqrt
        = Float32.sqrt (Float32.add (Float32.add (Float32.mul v.X v.X) (Float32.mul v.Y v.Y))
            (Float32.mul v.Z v.Z)))
    ∧ (∀ a b : FVector, a - b = ⟨Float32.sub a.X b.X, Float32.sub a.Y b.Y, Float32.sub a.Z b.Z⟩) := by
  refine ⟨?_, ?_, ?_, fun _ => rfl, fun _ _ => rfl⟩
  · intro hord
    have hagree : (if (L.TopLocation - FromPos).Size FMath.Sqrt
          > (L.BottomLocation - FromPos).Size FMath.Sqrt
          then L.BottomLocation else L.TopLocation) = ObstructedTracePoint FMath.Sqrt L FromPos := by
      unfold ObstructedTracePoint
      rcases hord with hlt | hgt
      · have hng : ¬ (L.TopLocation - FromPos).Size FMath.Sqrt
            > (L.BottomLocation - FromPos).Size FMath.Sqrt := Float32.lt_asymm_float hlt
        simp only [hng, hlt, if_true, if_false]
      · have hnl : ¬ (L.TopLocation - FromPos).Size FMath.Sqrt
            < (L.BottomLocation - FromPos).Size FMath.Sqrt := Float32.lt_asymm_float hgt
        have hgt' : (L.TopLocation - FromPos).Size FMath.Sqrt
            > (L.BottomLocation - FromPos).Size FMath.Sqrt := hgt
        simp only [hgt', hnl, if_true, if_false]
    refine ⟨?_, ?_⟩
    · rw [AddSplinePoints_first, hagree]
    · intro Entry hEntry
      rw [AddSplinePoints_first, hagree] at hEntry
      cases hEntry
      rfl
  · intro hnl hng
    have hng' : ¬ (L.TopLocation - FromPos).Size FMath.Sqrt
        > (L.BottomLocation - FromPos).Size FMath.Sqrt := hng
    have hP : ObstructedTracePoint FMath.Sqrt L FromPos = L.BottomLocation := by
      unfold ObstructedTracePoint
      simp only [hnl, if_false]
    have hF : (L.AddSplinePoints FMath.Sqrt FromPos OutSpline LastTile).Points[OutSpline.Points.length]?
        = some L.TopLocation := by
      rw [AddSplinePoints_first]
      simp only [hng', if_false]
    refine ⟨hP, ?_, hF, ?_⟩
    · unfold UNavLadderComponent.Obstructed
      simp only [hP]
    · intro hdist h
      rw [hF, hP] at h
      exact hdist (Option.some.inj h)
  · intro h
    rcases h with heq | hT | hB
    · constructor
      · intro hlt
        rw [heq] at hlt
        exact Float32.lt_asymm_float hlt hlt
      · intro hlt
        rw [heq] at hlt
        exact Float32.lt_asymm_float hlt hlt
    · exact ⟨Float32.not_lt_of_nan (Or.inl hT), Float32.not_lt_of_nan (Or.inr hT)⟩
    · exact ⟨Float32.not_lt_of_nan (Or.inr hB), Float32.not_lt_of_nan (Or.inl hB)⟩

set_option maxRecDepth 100000 in
/-- C11 (amended) at a concrete ladder with top path point (100, 0, 75) and
bottom path point (100, 0, -50): from (0, 0, -100), nearer the bottom, the
spline enters at the trace target, the bottom point; from (100, 0, 25/2),
equidistant from both, the spline enters at the top point and the trace target
is the bottom point. -/
theorem C11_entry_point_and_trace_target_witness :
    ((UpdateBodySetup id (sampleLadder 200)).AddSplinePoints FMath.Sqrt
        ⟨0, 0, -100⟩ ⟨[]⟩ false).Points[0]?
        = some (ObstructedTracePoint FMath.Sqrt (UpdateBodySetup id (sampleLadder 200))
            ⟨0, 0, -100⟩)
    ∧ ObstructedTracePoint FMath.Sqrt (UpdateBodySetup id (sampleLadder 200)) ⟨0, 0, -100⟩
        = ⟨100, 0, -50⟩
    ∧ ((UpdateBodySetup id (sampleLadder 200)).AddSplinePoints FMath.Sqrt
        ⟨100, 0, 25 / 2⟩ ⟨[]⟩ false).Points[0]?
        ≠ some (ObstructedTracePoint FMath.Sqrt (UpdateBodySetup id (sampleLadder 200))
            ⟨100, 0, 25 / 2⟩) :=
  ⟨((C11_entry_point_and_trace_target (fun _ _ _ => false)
      (UpdateBodySetup id (sampleLadder 200)) ⟨0, 0, -100⟩ ⟨[]⟩ false ⟨⟨0, 0, 0⟩⟩).1
      (Or.inr (by decide))).1,
   by decide,
   ((C11_entry_point_and_trace_target (fun _ _ _ => false)
      (UpdateBodySetup id (sampleLadder 200)) ⟨100, 0, 25 / 2⟩ ⟨[]⟩ false ⟨⟨0, 0, 0⟩⟩).2.1
      (by decide) (by decide)).2.2.2 (by decide)⟩

end NavGrid
